import Mathlib

/-!
The retrying GraphQL client and the activity polling loop of scanapp.

A shallow embedding of `pkg/wizapi/wizapi.go` and of the workflow in
`cmd/scanapp/main.go`.

Conventions of the embedding.

* A Go `error` is represented by its text (`err.Error()`).
* A Go function returning `(*T, error)` returns a `GoResult T`; a nil-pointer
  dereference is the separate outcome `GoResult.nilDeref`.
* The standard library and the network are collaborators: their outcomes are
  fields of `HTTPEnv` (`json.Marshal`, URL parsing of `http.NewRequest`,
  `http.Client.Do`, `http.Client.PostForm`, the `encoding/json` decoders).
* Side effects (`Session.Do`, `time.Sleep`, `log.Printf`, `Body.Close`,
  `fmt.Print*`) are recorded, in program order, in a trace of events.
* Durations are counted in seconds.
-/

namespace Scanapp

/-- Text of a Go `error` value. -/
abbrev GoError := String

/-- Outcome of a Go call of type `(*T, error)`; `nilDeref` is the run-time panic
of dereferencing a nil pointer. -/
inductive GoResult (α : Type) where
  | ok (a : α)
  | error (e : GoError)
  | nilDeref
  deriving Repr, DecidableEq

/-- Dynamic JSON-compatible value (`interface{}` as produced or consumed by
`encoding/json`). -/
inductive JSONValue where
  | null
  | bool (b : Bool)
  | number (n : Int)
  | string (s : String)
  | array (xs : List JSONValue)
  | object (kvs : List (String × JSONValue))

/-- Go map with string keys, as an association list; the first binding of a key
is the one in force. -/
abbrev GoMap (α : Type) := List (String × α)

/-- Map index expression `m[k]`: the bound value, if any. -/
def GoMap.lookup {α : Type} (m : GoMap α) (k : String) : Option α :=
  match m with
  | [] => none
  | (k1, v) :: rest => if k1 = k then some v else GoMap.lookup rest k

/-- Map assignment `m[k] = v`. -/
def GoMap.set {α : Type} (m : GoMap α) (k : String) (v : α) : GoMap α :=
  match m with
  | [] => [(k, v)]
  | (k1, v1) :: rest => if k1 = k then (k1, v) :: rest else (k1, v1) :: GoMap.set rest k v

/-- The `http.Response` fields the program reads. The HTTP client guarantees a
non-nil `Body` whenever it returns a nil error, so `Body` is the body text. -/
structure Response where
  StatusCode : Int
  Status : String
  Body : String
  deriving Repr, DecidableEq

/-- The `http.Request` built by `http.NewRequest` and the header calls. -/
structure Request where
  Method : String
  URL : String
  Header : GoMap (List String)
  Body : String
  deriving Repr, DecidableEq

/-- Method `Header.Set`: replaces the values of the key. -/
def Request.headerSet (r : Request) (k v : String) : Request :=
  { r with Header := GoMap.set r.Header k [v] }

/-- Method `Header.Add`: appends a value to the key. -/
def Request.headerAdd (r : Request) (k v : String) : Request :=
  { r with Header := GoMap.set r.Header k (((GoMap.lookup r.Header k).getD []) ++ [v]) }

/-- Outcome of one call of `w.Session.Do(request)`: a transport-level error or a
response. -/
inductive DoOutcome where
  | err (e : GoError)
  | resp (r : Response)
  deriving Repr, DecidableEq

/-- Struct `GraphQLResourceError`. -/
structure GraphQLResourceError where
  Message : String
  deriving Repr, DecidableEq

/-- The `Upload` struct inside `RequestSecurityScanUploadResponse`. -/
structure UploadSlot where
  ID : String
  URL : String
  SystemActivityId : String
  deriving Repr, DecidableEq

/-- The struct of field `requestSecurityScanUpload`. -/
structure RequestSecurityScanUploadPayload where
  Upload : UploadSlot
  deriving Repr, DecidableEq

/-- The `Data` struct of `RequestSecurityScanUploadResponse`. -/
structure RequestSecurityScanUploadData where
  RequestSecurityScanUpload : RequestSecurityScanUploadPayload
  deriving Repr, DecidableEq

/-- Struct `RequestSecurityScanUploadResponse`. -/
structure RequestSecurityScanUploadResponse where
  Data : RequestSecurityScanUploadData
  Errors : List GraphQLResourceError
  deriving Repr, DecidableEq

/-- Struct `IngestionStatsDetails`. -/
structure IngestionStatsDetails where
  Incoming : Int
  Handled : Int
  deriving Repr, DecidableEq

/-- The `UnresolvedAssets` struct of a system activity result. -/
structure UnresolvedAssets where
  Count : Int
  IDs : List String
  deriving Repr, DecidableEq

/-- The `Result` struct of a system activity. -/
structure SystemActivityResult where
  DataSources : IngestionStatsDetails
  Findings : IngestionStatsDetails
  Events : IngestionStatsDetails
  Tags : IngestionStatsDetails
  UnresolvedAssets : UnresolvedAssets
  deriving Repr, DecidableEq

/-- The `Context` struct of a system activity. -/
structure SystemActivityContext where
  FileUploadId : String
  deriving Repr, DecidableEq

/-- The `SystemActivity` struct. -/
structure SystemActivity where
  ID : String
  Status : String
  StatusInfo : String
  Result : SystemActivityResult
  Context : SystemActivityContext
  deriving Repr, DecidableEq

/-- The `Data` struct of `SystemActivityResponse`. -/
structure SystemActivityData where
  SystemActivity : SystemActivity
  deriving Repr, DecidableEq

/-- Struct `SystemActivityResponse`. -/
structure SystemActivityResponse where
  Data : SystemActivityData
  Errors : List GraphQLResourceError
  deriving Repr, DecidableEq

/-- A technology of a graph entity. -/
structure Technology where
  ID : String
  Icon : String

/-- An entity of a graph search node; its field `Type` is named `Type_` here. -/
structure GraphEntity where
  ID : String
  Name : String
  Properties : GoMap JSONValue
  Technologies : List Technology
  Type_ : String
  UserMetadata : JSONValue

/-- A node of a graph search. -/
structure GraphNode where
  AggregateCount : JSONValue
  Entities : List GraphEntity

/-- The `PageInfo` struct of a graph search. -/
structure PageInfo where
  EndCursor : String
  HasNextPage : Bool

/-- The `GraphSearch` struct. -/
structure GraphSearch where
  MaxCountReached : Bool
  TotalCount : Int
  Nodes : List GraphNode
  PageInfo : PageInfo

/-- The `Data` struct of `GraphQLResourceResponse`. -/
structure GraphQLResourceData where
  GraphSearch : GraphSearch

/-- Struct `GraphQLResourceResponse`. -/
structure GraphQLResourceResponse where
  Data : GraphQLResourceData
  Errors : List GraphQLResourceError

/-- The `http.Client` held in `WizAPI.Session`: its timeout, in seconds. -/
structure HTTPClient where
  Timeout : Nat
  deriving Repr, DecidableEq

/-- Struct `WizAPI`; its map field `WizAPI` is named `WizAPIConfig` here. -/
structure WizAPI where
  Session : HTTPClient
  AuthToken : String
  WizAPIConfig : GoMap String
  ClientID : String
  ClientSecret : String
  ClientAuthURL : String
  ClientQueryURL : String
  deriving Repr, DecidableEq

/-- Function `NewWizAPI`. -/
def NewWizAPI (clientID clientSecret clientAuthURL clientQueryURL : String) : WizAPI :=
  { Session := { Timeout := 60 }
    AuthToken := ""
    WizAPIConfig := [("proxy", ""), ("wiz_req_timeout", "300")]
    ClientID := clientID
    ClientSecret := clientSecret
    ClientAuthURL := clientAuthURL
    ClientQueryURL := clientQueryURL }

/-- The collaborators of the client: the standard library and the network.
`Do n` is the outcome of the `n`-th call (counted from 0) of `Session.Do` made
by one call of `QueryWithRetry`; `PostForm` is the outcome of the
authentication request. -/
structure HTTPEnv where
  jsonMarshal : JSONValue → Except GoError String
  urlParseError : String → Option GoError
  Do : Nat → DoOutcome
  PostForm : String → GoMap (List String) → DoOutcome
  decodeMap : String → Except GoError (GoMap JSONValue)
  decodeUpload : String → Except GoError RequestSecurityScanUploadResponse
  decodeActivity : String → Except GoError SystemActivityResponse
  decodeResource : String → Except GoError GraphQLResourceResponse

/-- Observable steps of the client, in program order. -/
inductive Event where
  | postForm (url : String) (form : GoMap (List String))
  | doRequest (attempt : Nat) (req : Request)
  | closeBody (r : Response)
  | sleep (seconds : Nat)
  | log (msg : String)
  deriving Repr, DecidableEq

/-- Method `RetryableResponseStatusCode`: 429, 502, 503 and 504. The receiver is
not read. -/
def WizAPI.RetryableResponseStatusCode (_w : WizAPI) (statusCode : Int) : Bool :=
  if statusCode = 429 ∨ statusCode = 502 ∨ statusCode = 503 ∨ statusCode = 504 then true
  else false

/-- Function `http.NewRequest`: fails when the URL does not parse. -/
def httpNewRequest (env : HTTPEnv) (method url body : String) : Except GoError Request :=
  match env.urlParseError url with
  | some e => .error e
  | none => .ok { Method := method, URL := url, Header := [], Body := body }

/-- Variables of the retry loop of `QueryWithRetry`. -/
structure RetryVars where
  response : Option Response
  err : Option GoError
  trace : List Event
  deriving Repr, DecidableEq

/-- The loop `for attempt := 0; attempt < maxRetries; attempt++` of
`QueryWithRetry`; `remaining` is `maxRetries - attempt`. -/
def retryLoop (w : WizAPI) (env : HTTPEnv) (request : Request) (retryDelay : Nat) :
    (remaining : Nat) → (attempt : Nat) → RetryVars → RetryVars
  | 0, _, st => st
  | remaining + 1, attempt, st =>
    match env.Do attempt with
    | .err e =>
      retryLoop w env request retryDelay remaining (attempt + 1)
        { response := none
          err := some e
          trace := st.trace ++
            [ .doRequest attempt request
            , .log ("Error querying Wiz API: " ++ e ++ "\n")
            , .sleep retryDelay ] }
    | .resp r =>
      if !w.RetryableResponseStatusCode r.StatusCode then
        { response := some r
          err := none
          trace := st.trace ++ [.doRequest attempt request] }
      else
        retryLoop w env request retryDelay remaining (attempt + 1)
          { response := some r
            err := none
            trace := st.trace ++
              [ .doRequest attempt request
              , .closeBody r
              , .log ("Retrying due to status code: " ++ toString r.StatusCode ++
                  ", attempt: " ++ toString (attempt + 1) ++ "\n")
              , .sleep retryDelay ] }

/-- Method `QueryWithRetry`: the result together with the trace of its steps. -/
def WizAPI.QueryWithRetry (w : WizAPI) (env : HTTPEnv) (query : String)
    (queryVariables : GoMap JSONValue) : GoResult Response × List Event :=
  let maxRetries := 3
  let retryDelay := 2
  let data : GoMap JSONValue := [("query", .string query), ("variables", .object queryVariables)]
  match env.jsonMarshal (.object data) with
  | .error err => (.error err, [.log ("Error marshaling query data: " ++ err ++ "\n")])
  | .ok jsonData =>
    match httpNewRequest env "POST" w.ClientQueryURL jsonData with
    | .error err => (.error err, [.log ("Error creating request: " ++ err ++ "\n")])
    | .ok request0 =>
      let request := ((request0.headerSet "Authorization" ("Bearer " ++ w.AuthToken)).headerAdd
        "Accept" "application/json").headerSet "Content-Type" "application/json"
      let st := retryLoop w env request retryDelay maxRetries 0
        { response := none, err := none, trace := [] }
      match st.err with
      | some err => (.error err, st.trace)
      | none =>
        match st.response with
        | some response =>
          if !w.RetryableResponseStatusCode response.StatusCode then (.ok response, st.trace)
          else
            (.error ("max retries reached with status code: " ++ toString response.StatusCode),
              st.trace)
        | none => (.nilDeref, st.trace)

/-- Constant `graphResourceSearchQuery`. -/
def graphResourceSearchQuery : String :=
  "\n" ++
  "query GraphSearch($query: GraphEntityQueryInput, $controlId: ID, $projectId: String!, $first: Int, $after: String, $fetchTotalCount: Boolean!, $quick: Boolean = true, $fetchPublicExposurePaths: Boolean = false, $fetchInternalExposurePaths: Boolean = false, $fetchIssueAnalytics: Boolean = false, $fetchLateralMovement: Boolean = false, $fetchKubernetes: Boolean = false) \x7b\n" ++
  "\tgraphSearch(\n\t  query: $query\n\t  controlId: $controlId\n" ++
  "\t  projectId: $projectId\n\t  first: $first\n\t  after: $after\n" ++
  "\t  quick: $quick\n\t) \x7b\n\t  totalCount @include(if: $fetchTotalCount)\n" ++
  "\t  maxCountReached @include(if: $fetchTotalCount)\n\t  pageInfo \x7b\n" ++
  "\t\tendCursor\n\t\thasNextPage\n\t  \x7d\n\t  nodes \x7b\n\t\tentities \x7b\n" ++
  "\t\t  ...PathGraphEntityFragment\n\t\t  userMetadata \x7b\n\t\t\tisInWatchlist\n" ++
  "\t\t\tisIgnored\n\t\t\tnote\n\t\t  \x7d\n\t\t  technologies \x7b\n\t\t\tid\n" ++
  "\t\t\ticon\n\t\t  \x7d\n" ++
  "\t\t  publicExposures(first: 10) @include(if: $fetchPublicExposurePaths) \x7b\n" ++
  "\t\t\tnodes \x7b\n\t\t\t  ...NetworkExposureFragment\n\t\t\t\x7d\n\t\t  \x7d\n" ++
  "\t\t  otherSubscriptionExposures(first: 10) @include(if: $fetchInternalExposurePaths) \x7b\n" ++
  "\t\t\tnodes \x7b\n\t\t\t  ...NetworkExposureFragment\n\t\t\t\x7d\n\t\t  \x7d\n" ++
  "\t\t  otherVnetExposures(first: 10) @include(if: $fetchInternalExposurePaths) \x7b\n" ++
  "\t\t\tnodes \x7b\n\t\t\t  ...NetworkExposureFragment\n\t\t\t\x7d\n\t\t  \x7d\n" ++
  "\t\t  lateralMovementPaths(first: 10) @include(if: $fetchLateralMovement) \x7b\n" ++
  "\t\t\tnodes \x7b\n\t\t\t  id\n\t\t\t  pathEntities \x7b\n\t\t\t\tentity \x7b\n" ++
  "\t\t\t\t  ...PathGraphEntityFragment\n\t\t\t\t\x7d\n\t\t\t  \x7d\n\t\t\t\x7d\n" ++
  "\t\t  \x7d\n" ++
  "\t\t  kubernetesPaths(first: 10) @include(if: $fetchKubernetes) \x7b\n" ++
  "\t\t\tnodes \x7b\n\t\t\t  id\n\t\t\t  path \x7b\n" ++
  "\t\t\t\t...PathGraphEntityFragment\n\t\t\t  \x7d\n\t\t\t\x7d\n\t\t  \x7d\n" ++
  "\t\t\x7d\n\t\taggregateCount\n\t  \x7d\n\t\x7d\n  \x7d\n  \n" ++
  "\t  fragment PathGraphEntityFragment on GraphEntity \x7b\n\tid\n\tname\n\ttype\n" ++
  "\tproperties\n" ++
  "\tissueAnalytics: issues(filterBy: \x7bstatus: [IN_PROGRESS, OPEN]\x7d) @include(if: $fetchIssueAnalytics) \x7b\n" ++
  "\t  highSeverityCount\n\t  criticalSeverityCount\n\t\x7d\n  \x7d\n  \n  \n" ++
  "\t  fragment NetworkExposureFragment on NetworkExposure \x7b\n\tid\n" ++
  "\tportRange\n\tsourceIpRange\n\tdestinationIpRange\n\tpath \x7b\n" ++
  "\t  ...PathGraphEntityFragment\n\t\x7d\n\tapplicationEndpoints \x7b\n" ++
  "\t  ...PathGraphEntityFragment\n\t\x7d\n  \x7d\n"

/-- Constant `graphFileUploadRequest`. -/
def graphFileUploadRequest : String :=
  "\nquery RequestSecurityScanUpload($filename: String!) \x7b\n" ++
  "\trequestSecurityScanUpload(filename: $filename) \x7b\n\t  upload \x7b\n\t\tid\n" ++
  "\t\turl\n\t\tsystemActivityId\n\t  \x7d\n\t\x7d\n\x7d\n"

/-- Constant `graphSystemActivityQuery`. -/
def graphSystemActivityQuery : String :=
  "\nquery SystemActivity($id: ID!) \x7b\n\tsystemActivity(id: $id) \x7b\n\t\tid\n" ++
  "\t\tstatus\n\t\tstatusInfo\n\t\tresult \x7b\n" ++
  "\t\t  ...on SystemActivityEnrichmentIntegrationResult\x7b\n" ++
  "\t\t\tdataSources \x7b\n\t\t\t  ... IngestionStatsDetails\n\t\t\t\x7d\n" ++
  "\t\t\tfindings \x7b\n\t\t\t  ... IngestionStatsDetails\n\t\t\t\x7d\n" ++
  "\t\t\tevents \x7b\n\t\t\t  ... IngestionStatsDetails\n\t\t\t\x7d\n" ++
  "\t\t\ttags \x7b\n\t\t\t  ... IngestionStatsDetails\n\t\t\t\x7d\n" ++
  "\t\t\tunresolvedAssets \x7b\n\t\t\t  ... UnresolvedAssetsDetails\n\t\t\t\x7d\n" ++
  "\t\t  \x7d\n\t\t\x7d\n\t\tcontext \x7b\n" ++
  "\t\t  ... on SystemActivityEnrichmentIntegrationContext\x7b\n" ++
  "\t\t\tfileUploadId\n\t\t  \x7d\n\t\t\x7d\n\t\x7d\n  \x7d\n" ++
  "fragment IngestionStatsDetails on EnrichmentIntegrationStats \x7b\n\tincoming\n" ++
  "\thandled\n\x7d\n\n" ++
  "fragment UnresolvedAssetsDetails on EnrichmentIntegrationUnresolvedAssets \x7b\n" ++
  "\tcount\n\tids\n\x7d\n"

/-- The elements of a `[]GraphQLResourceError` as verb `%v` of `fmt` prints
them: each struct between braces, separated by one space. -/
def formatErrorList : List GraphQLResourceError → String
  | [] => ""
  | [e] => "\x7b" ++ e.Message ++ "\x7d"
  | e :: rest => "\x7b" ++ e.Message ++ "\x7d" ++ " " ++ formatErrorList rest

/-- Verb `%v` of `fmt` applied to a `[]GraphQLResourceError`: the elements
between brackets. -/
def formatErrors (errs : List GraphQLResourceError) : String :=
  "[" ++ formatErrorList errs ++ "]"

/-- The form `requestData` that `Authenticate` posts. -/
def authRequestData (w : WizAPI) : GoMap (List String) :=
  GoMap.set (GoMap.set (GoMap.set (GoMap.set [] "audience" ["wiz-api"])
    "grant_type" ["client_credentials"]) "client_id" [w.ClientID])
    "client_secret" [w.ClientSecret]

/-- Method `Authenticate`: the client after the call, the returned error (`none`
is nil) and the trace. -/
def WizAPI.Authenticate (w : WizAPI) (env : HTTPEnv) : WizAPI × Option GoError × List Event :=
  let requestData := authRequestData w
  match env.PostForm w.ClientAuthURL requestData with
  | .err err =>
    (w, some ("error authenticating to the Wiz API: " ++ err),
      [.postForm w.ClientAuthURL requestData])
  | .resp response =>
    if response.StatusCode ≠ 200 then
      (w, some ("authentication failed with status: " ++ response.Status ++ " - " ++
          response.Body),
        [.postForm w.ClientAuthURL requestData, .closeBody response])
    else
      match env.decodeMap response.Body with
      | .error err =>
        (w, some ("error parsing authentication response: " ++ err),
          [.postForm w.ClientAuthURL requestData, .closeBody response])
      | .ok responseData =>
        match GoMap.lookup responseData "access_token" with
        | some (.string token) =>
          ({ w with AuthToken := token }, none,
            [.postForm w.ClientAuthURL requestData, .closeBody response])
        | _ =>
          (w, some "no access token found in the response",
            [.postForm w.ClientAuthURL requestData, .closeBody response])

/-- The fields of `config.Config`. -/
structure Config where
  WizClientID : String
  WizClientSecret : String
  WizQueryURL : String
  WizAuthURL : String
  ScanSubscriptionID : String
  ScanCloudType : String
  ScanProviderID : String
  Save : Bool
  deriving Repr, DecidableEq

/-- Function `resourceCreateQueryVariables`. -/
def resourceCreateQueryVariables (scanCloudType scanProviderID : String) : GoMap JSONValue :=
  [ ("quick", .bool true)
  , ("first", .number 50)
  , ("query", .object
      [ ("type", .array [.string "VIRTUAL_MACHINE"])
      , ("select", .bool true)
      , ("where", .object
          [ ("cloudPlatform", .object [("EQUALS", .array [.string scanCloudType])])
          , ("externalId", .object [("EQUALS", .array [.string scanProviderID])]) ]) ])
  , ("projectId", .string "*")
  , ("fetchTotalCount", .bool true) ]

/-- Method `GraphResourceSearch`. -/
def WizAPI.GraphResourceSearch (w : WizAPI) (env : HTTPEnv) (cfg : Config) :
    GoResult GraphQLResourceResponse × List Event :=
  let queryVariables := resourceCreateQueryVariables cfg.ScanCloudType cfg.ScanProviderID
  let query := graphResourceSearchQuery
  match w.QueryWithRetry env query queryVariables with
  | (.error err, tr) => (.error ("error querying with retry: " ++ err), tr)
  | (.nilDeref, tr) => (.nilDeref, tr)
  | (.ok response, tr) =>
    match env.decodeResource response.Body with
    | .error err => (.error ("error unmarshaling response: " ++ err), tr)
    | .ok graphQLResourceResponse =>
      if graphQLResourceResponse.Errors.length > 0 then
        (.error ("graphql errors: " ++ formatErrors graphQLResourceResponse.Errors), tr)
      else (.ok graphQLResourceResponse, tr)

/-- Method `RequestSecurityScanUpload`. -/
def WizAPI.RequestSecurityScanUpload (w : WizAPI) (env : HTTPEnv) (filename : String) :
    GoResult RequestSecurityScanUploadResponse × List Event :=
  let queryVariables : GoMap JSONValue := [("filename", .string filename)]
  match w.QueryWithRetry env graphFileUploadRequest queryVariables with
  | (.error err, tr) => (.error ("error querying with retry: " ++ err), tr)
  | (.nilDeref, tr) => (.nilDeref, tr)
  | (.ok response, tr) =>
    match env.decodeUpload response.Body with
    | .error err => (.error ("error unmarshaling response: " ++ err), tr)
    | .ok uploadResponse =>
      if uploadResponse.Errors.length > 0 then
        (.error ("graphql errors: " ++ formatErrors uploadResponse.Errors), tr)
      else (.ok uploadResponse, tr)

/-- Method `QuerySystemActivity`; the deferred `response.Body.Close()` is the
last step of every path after the transport succeeded. -/
def WizAPI.QuerySystemActivity (w : WizAPI) (env : HTTPEnv) (systemActivityID : String) :
    GoResult SystemActivityResponse × List Event :=
  let queryVariables : GoMap JSONValue := [("id", .string systemActivityID)]
  match w.QueryWithRetry env graphSystemActivityQuery queryVariables with
  | (.error err, tr) =>
    (.error ("error querying system activity with retry: " ++ err), tr)
  | (.nilDeref, tr) => (.nilDeref, tr)
  | (.ok response, tr) =>
    match env.decodeActivity response.Body with
    | .error err =>
      (.error ("error unmarshaling response: " ++ err), tr ++ [.closeBody response])
    | .ok systemActivityResponse =>
      if systemActivityResponse.Errors.length > 0 then
        (.error ("graphql errors: " ++ formatErrors systemActivityResponse.Errors),
          tr ++ [.closeBody response])
      else (.ok systemActivityResponse, tr ++ [.closeBody response])

/-- Function `strings.Contains`: `substr` occurs in `s` as a contiguous run. -/
def stringsContains (s substr : String) : Bool :=
  s.toList.tails.any fun t => substr.toList.isPrefixOf t

/-- The operations `main` calls on its collaborators, as abstract outcomes:
the three methods of the API client and `aws.StateUpload`.
`QuerySystemActivity n id` is the outcome of the `n`-th poll query (counted
from 0). An error is `some`/`Except.error` of its text. -/
structure Services where
  Authenticate : Option GoError
  RequestSecurityScanUpload : String → Except GoError RequestSecurityScanUploadResponse
  StateUpload : String → String → Option GoError
  QuerySystemActivity : Nat → String → Except GoError SystemActivityResponse

/-- Observable steps of `main`, in program order. -/
inductive MainEvent where
  | authenticate
  | requestUpload (filename : String)
  | stateUpload (url filename : String)
  | query (systemActivityID : String)
  | sleep (seconds : Nat)
  | print (text : String)
  | nilDeref
  deriving Repr, DecidableEq

/-- Variables of the polling loop of `main`; `returned` records the `return`
inside the loop. -/
structure PollVars where
  systemActivityResponse : Option SystemActivityResponse
  err : Option GoError
  returned : Bool
  trace : List MainEvent
  deriving Repr, DecidableEq

/-- The loop `for attempt := 0; attempt < maxRetries; attempt++` of `main`;
`remaining` is `maxRetries - attempt`. -/
def pollLoop (svc : Services) (systemActivityId : String) (maxRetries retryDelay : Nat) :
    (remaining : Nat) → (attempt : Nat) → PollVars → PollVars
  | 0, _, st => st
  | remaining + 1, attempt, st =>
    match svc.QuerySystemActivity attempt systemActivityId with
    | .error err =>
      if stringsContains err "Resource not found" && decide (attempt < maxRetries - 1) then
        pollLoop svc systemActivityId maxRetries retryDelay remaining (attempt + 1)
          { systemActivityResponse := none
            err := some err
            returned := false
            trace := st.trace ++
              [ .query systemActivityId
              , .print ("Resource not found, retrying in " ++ toString retryDelay ++
                  " seconds...\n")
              , .sleep retryDelay ] }
      else
        { systemActivityResponse := none
          err := some err
          returned := true
          trace := st.trace ++
            [ .query systemActivityId
            , .print ("Error querying system activity: " ++ err ++ "\n") ] }
    | .ok r =>
      { systemActivityResponse := some r
        err := none
        returned := false
        trace := st.trace ++ [.query systemActivityId] }

/-- The part of `main` from the polling loop to the end: the loop and the
report after it. -/
def pollAndReport (svc : Services) (systemActivityId : String) : List MainEvent :=
  let maxRetries := 5
  let retryDelay := 10
  let st := pollLoop svc systemActivityId maxRetries retryDelay maxRetries 0
    { systemActivityResponse := none, err := none, returned := false, trace := [] }
  if st.returned then st.trace
  else
    match st.err with
    | none =>
      match st.systemActivityResponse with
      | some r =>
        st.trace ++ [.print ("System Activity Status: " ++ r.Data.SystemActivity.Status ++ "\n")]
      | none => st.trace ++ [.nilDeref]
    | some _ => st.trace ++ [.print "Failed to query system activity after retries.\n"]

/-- Function `main` from the creation of the API client on (the code before it
obtains the configuration or exits the process); the client built from the
configuration and `aws.StateUpload` are the abstract `svc`. The result is the
trace of the steps. -/
def main (svc : Services) : List MainEvent :=
  match svc.Authenticate with
  | some err => [.authenticate, .print ("Failed to authenticate with WizAPI: " ++ err ++ "\n")]
  | none =>
    let filename := "state-current.json"
    match svc.RequestSecurityScanUpload filename with
    | .error err =>
      [ .authenticate
      , .print "Authenticated with WizAPI successfully\n"
      , .requestUpload filename
      , .print ("Error requesting security scan upload: " ++ err ++ "\n") ]
    | .ok uploadResponse =>
      let upload := uploadResponse.Data.RequestSecurityScanUpload.Upload
      match svc.StateUpload upload.URL filename with
      | some err =>
        [ .authenticate
        , .print "Authenticated with WizAPI successfully\n"
        , .requestUpload filename
        , .print ("Upload ID: " ++ upload.ID ++ "\n")
        , .print ("Upload URL: " ++ upload.URL ++ "\n")
        , .print ("System Activity ID: " ++ upload.SystemActivityId ++ "\n")
        , .stateUpload upload.URL filename
        , .print ("Error uploading state file: " ++ err ++ "\n") ]
      | none =>
        [ .authenticate
        , .print "Authenticated with WizAPI successfully\n"
        , .requestUpload filename
        , .print ("Upload ID: " ++ upload.ID ++ "\n")
        , .print ("Upload URL: " ++ upload.URL ++ "\n")
        , .print ("System Activity ID: " ++ upload.SystemActivityId ++ "\n")
        , .stateUpload upload.URL filename ] ++
        pollAndReport svc upload.SystemActivityId

/-- The two kinds of step of `QueryWithRetry` that the retry contract is about:
an HTTP attempt and a blocking wait. -/
inductive Step where
  | attempt (n : Nat)
  | wait (seconds : Nat)
  deriving Repr, DecidableEq

/-- The step an event stands for, if it is an attempt or a wait. -/
def Event.toStep : Event → Option Step
  | .doRequest n _ => some (.attempt n)
  | .sleep d => some (.wait d)
  | _ => none

/-- The attempts and waits of a trace, in order. -/
def steps (tr : List Event) : List Step := tr.filterMap Event.toStep

/-- The request body `QueryWithRetry` marshals. -/
def queryData (query : String) (queryVariables : GoMap JSONValue) : JSONValue :=
  .object [("query", .string query), ("variables", .object queryVariables)]


/-- A concrete environment: every attempt is answered with status `status`, and
every decoder accepts. -/
def envAlways (status : Int) : HTTPEnv :=
  { jsonMarshal := fun _ => .ok "body"
    urlParseError := fun _ => none
    Do := fun _ => .resp { StatusCode := status, Status := "", Body := "" }
    PostForm := fun _ _ => .resp { StatusCode := status, Status := "", Body := "" }
    decodeMap := fun _ => .ok []
    decodeUpload := fun _ => .ok
      { Data := { RequestSecurityScanUpload := { Upload := { ID := "", URL := "", SystemActivityId := "" } } }
        Errors := [] }
    decodeActivity := fun _ => .error "unexpected end of JSON input"
    decodeResource := fun _ => .error "unexpected end of JSON input" }

/-- A concrete environment: every attempt fails at transport level, the
`n`-th with the error text `errs n`. -/
def envRefused (errs : Nat → GoError) : HTTPEnv :=
  { envAlways 200 with Do := fun n => .err (errs n) }

/-- Whether an event is an HTTP request leaving the client. -/
def Event.isRequest : Event → Bool
  | .postForm _ _ => true
  | .doRequest _ _ => true
  | _ => false

/-- The contract of a query operation with result `run`, built on the transport
result `transport` and the decoder `decode`: a decoded body with a non-empty
errors list gives the `graphql errors` error that lists every message, and the
operation returns a value exactly when the transport returned a response, its
body decoded to that value, and the errors list of the value is empty. -/
def SurfacesAPIErrors {α : Type} (run : GoResult α) (transport : GoResult Response)
    (decode : String → Except GoError α) (errorsOf : α → List GraphQLResourceError) : Prop :=
  (∀ response v, transport = .ok response → decode response.Body = .ok v →
      errorsOf v ≠ [] →
      run = .error ("graphql errors: " ++ formatErrors (errorsOf v)) ∧
      ∀ e ∈ errorsOf v,
        stringsContains ("graphql errors: " ++ formatErrors (errorsOf v)) e.Message = true) ∧
  (∀ v, run = .ok v ↔
      ∃ response, transport = .ok response ∧ decode response.Body = .ok v ∧ errorsOf v = [])

/-- A concrete environment: the first attempt is answered with status 200, and
the body decodes to an upload response with every data field populated and one
error message. -/
def envPopulatedWithErrors : HTTPEnv :=
  { envAlways 200 with
    decodeUpload := fun _ => .ok
      { Data := { RequestSecurityScanUpload := { Upload :=
          { ID := "u1", URL := "https://x/put", SystemActivityId := "a1" } } }
        Errors := [{ Message := "access denied" }] } }

/-- Whether a poll outcome is a failure whose text contains
`Resource not found`. -/
def notFound (o : Except GoError SystemActivityResponse) : Bool :=
  match o with
  | .error err => stringsContains err "Resource not found"
  | .ok _ => false

/-- The steps of one poll iteration that ends in `continue`: the query, the
retry message and the 10-second sleep. -/
def retryBlock (systemActivityId : String) : List MainEvent :=
  [ .query systemActivityId
  , .print ("Resource not found, retrying in " ++ toString (10 : Nat) ++ " seconds...\n")
  , .sleep 10 ]

/-- The two kinds of step of the polling loop that the polling contract is
about: a poll query and a blocking wait. -/
inductive PollStep where
  | query
  | wait (seconds : Nat)
  deriving Repr, DecidableEq

/-- The step an event of `main` stands for, if it is a query or a sleep. -/
def MainEvent.toPollStep : MainEvent → Option PollStep
  | .query _ => some .query
  | .sleep d => some (.wait d)
  | _ => none

/-- The poll queries and waits of a trace, in order. -/
def pollSteps (tr : List MainEvent) : List PollStep := tr.filterMap MainEvent.toPollStep

/-- Number of poll queries of a trace. -/
def queryCount (tr : List MainEvent) : Nat := (pollSteps tr).count .query

/-- Services in which the activity never becomes visible: every poll query
fails with the GraphQL error `Resource not found`. -/
def svcNeverVisible : Services :=
  { Authenticate := none
    RequestSecurityScanUpload := fun _ => .ok
      { Data := { RequestSecurityScanUpload := { Upload :=
          { ID := "u1", URL := "https://x/put", SystemActivityId := "a1" } } }
        Errors := [] }
    StateUpload := fun _ _ => none
    QuerySystemActivity := fun _ _ => .error "graphql errors: [\x7bResource not found\x7d]" }

/-- An activity response with the given status and every other field empty. -/
def activityWithStatus (status : String) : SystemActivityResponse :=
  { Data := { SystemActivity :=
      { ID := "a1", Status := status, StatusInfo := ""
        Result :=
          { DataSources := { Incoming := 0, Handled := 0 }
            Findings := { Incoming := 0, Handled := 0 }
            Events := { Incoming := 0, Handled := 0 }
            Tags := { Incoming := 0, Handled := 0 }
            UnresolvedAssets := { Count := 0, IDs := [] } }
        Context := { FileUploadId := "u1" } } }
    Errors := [] }

/-- Services in which the activity becomes visible at the third poll query,
with status `PENDING`. -/
def svcVisibleAtThird : Services :=
  { svcNeverVisible with
    QuerySystemActivity := fun n _ =>
      if n < 2 then .error "graphql errors: [\x7bResource not found\x7d]"
      else .ok (activityWithStatus "PENDING") }

/-- Services in which the second poll query fails with an error that is not a
`Resource not found` error. -/
def svcDeniedAtSecond : Services :=
  { svcNeverVisible with
    QuerySystemActivity := fun n _ =>
      if n < 1 then .error "graphql errors: [\x7bResource not found\x7d]"
      else .error "graphql errors: [\x7baccess denied\x7d]" }

/-- Services whose authentication fails. -/
def svcAuthFails : Services :=
  { svcNeverVisible with Authenticate := some "authentication failed with status: 401" }

/-- The steps of `main` before the storage upload, once authentication and the
slot request succeeded with slot `upload`. -/
def stepsBeforeUpload (upload : UploadSlot) : List MainEvent :=
  [ .authenticate
  , .print "Authenticated with WizAPI successfully\n"
  , .requestUpload "state-current.json"
  , .print ("Upload ID: " ++ upload.ID ++ "\n")
  , .print ("Upload URL: " ++ upload.URL ++ "\n")
  , .print ("System Activity ID: " ++ upload.SystemActivityId ++ "\n") ]

/-- Whether attempt `i` of `QueryWithRetry` ends in a transport error or in a
response with a retryable status. -/
def attemptFailed (w : WizAPI) (env : HTTPEnv) (i : Nat) : Bool :=
  match env.Do i with
  | .err _ => true
  | .resp r => w.RetryableResponseStatusCode r.StatusCode

/-- Number of waits of a list of steps. -/
def sleepCount (ss : List Step) : Nat :=
  (ss.filter fun s => match s with
    | .wait _ => true
    | .attempt _ => false).length

/-- Number of attempts of a list of steps. -/
def attemptCount (ss : List Step) : Nat :=
  (ss.filter fun s => match s with
    | .attempt _ => true
    | .wait _ => false).length

/-- Total time waited by a list of steps, in seconds. -/
def sleepSeconds (ss : List Step) : Nat :=
  (ss.map fun s => match s with
    | .wait d => d
    | .attempt _ => 0).sum

/-- What a query operation makes of a response body, given the decoder of its
result type: the decode error, the `graphql errors` error, or the decoded value.
The status of the response is not an argument. -/
def decodeOutcome {α : Type} (decode : String → Except GoError α)
    (errorsOf : α → List GraphQLResourceError) (body : String) : GoResult α :=
  match decode body with
  | .error err => .error ("error unmarshaling response: " ++ err)
  | .ok v =>
    if (errorsOf v).length > 0 then .error ("graphql errors: " ++ formatErrors (errorsOf v))
    else .ok v

/-- Change in the number of open response bodies made by one event: a request
that is answered opens the body of its response, a `Body.Close` closes one. -/
def Event.bodyDelta (env : HTTPEnv) : Event → Int
  | .postForm url form =>
    match env.PostForm url form with
    | .resp _ => 1
    | .err _ => 0
  | .doRequest n _ =>
    match env.Do n with
    | .resp _ => 1
    | .err _ => 0
  | .closeBody _ => -1
  | _ => 0

/-- Number of response bodies that a trace leaves open. -/
def openBodies (env : HTTPEnv) (tr : List Event) : Int :=
  (tr.map (Event.bodyDelta env)).sum

/-- A configuration for the resource search. -/
def cfgSample : Config :=
  { WizClientID := "id", WizClientSecret := "secret", WizQueryURL := "https://api"
    WizAuthURL := "https://auth", ScanSubscriptionID := "sub", ScanCloudType := "AWS"
    ScanProviderID := "i-0abc", Save := false }

/-- The request as a call of `Session.Do` finds it: the request that
`QueryWithRetry` builds once before its loop, and the state of its body. The body
is a reader over the buffer `bytes.NewBuffer(jsonData)`, and `unread` is what that
reader still yields. The bytes the buffer held when the request was made, which
`http.NewRequest` keeps for `GetBody`, are `request.Body`. -/
structure LiveRequest where
  request : Request
  unread : String
  deriving Repr, DecidableEq

/-- What one call of `Session.Do` does: its outcome, the request body it put on
the wire (`none` when it sent no request), and what it leaves unread in the body
of the request it was handed. -/
structure Exchange where
  outcome : DoOutcome
  delivered : Option String
  unreadAfter : String
  deriving Repr, DecidableEq

/-- The HTTP client as a collaborator that reads the request it is handed:
`Do n r` is the `n`-th call (counted from 0) of `Session.Do`, handed the request in
state `r`. -/
structure Wire where
  Do : Nat → LiveRequest → Exchange

/-- Variables of the retry loop of `QueryWithRetry`, with the state of the one
request that every iteration passes to `Session.Do`, and the bodies delivered so
far, one entry per attempt. -/
structure LiveVars where
  response : Option Response
  err : Option GoError
  request : LiveRequest
  delivered : List (Option String)
  trace : List Event
  deriving Repr, DecidableEq

/-- The loop of `QueryWithRetry` as in `retryLoop`, with the request state made
explicit: the variable `request` is assigned before the loop and never again, so
each `w.Session.Do(request)` finds the body as the previous call left it. -/
def retryLoopLive (w : WizAPI) (wire : Wire) (retryDelay : Nat) :
    (remaining : Nat) → (attempt : Nat) → LiveVars → LiveVars
  | 0, _, st => st
  | remaining + 1, attempt, st =>
    match (wire.Do attempt st.request).outcome with
    | .err e =>
      retryLoopLive w wire retryDelay remaining (attempt + 1)
        { response := none
          err := some e
          request := { st.request with unread := (wire.Do attempt st.request).unreadAfter }
          delivered := st.delivered ++ [(wire.Do attempt st.request).delivered]
          trace := st.trace ++
            [ .doRequest attempt st.request.request
            , .log ("Error querying Wiz API: " ++ e ++ "\n")
            , .sleep retryDelay ] }
    | .resp r =>
      if !w.RetryableResponseStatusCode r.StatusCode then
        { response := some r
          err := none
          request := { st.request with unread := (wire.Do attempt st.request).unreadAfter }
          delivered := st.delivered ++ [(wire.Do attempt st.request).delivered]
          trace := st.trace ++ [.doRequest attempt st.request.request] }
      else
        retryLoopLive w wire retryDelay remaining (attempt + 1)
          { response := some r
            err := none
            request := { st.request with unread := (wire.Do attempt st.request).unreadAfter }
            delivered := st.delivered ++ [(wire.Do attempt st.request).delivered]
            trace := st.trace ++
              [ .doRequest attempt st.request.request
              , .closeBody r
              , .log ("Retrying due to status code: " ++ toString r.StatusCode ++
                  ", attempt: " ++ toString (attempt + 1) ++ "\n")
              , .sleep retryDelay ] }

/-- The result of one run of `QueryWithRetry` with the request state explicit. -/
structure LiveRun where
  result : GoResult Response
  trace : List Event
  delivered : List (Option String)
  deriving Repr, DecidableEq

/-- Method `QueryWithRetry` as in `WizAPI.QueryWithRetry`, with the request state
explicit: the request and its body buffer are made once, from `jsonData`, before
the loop. -/
def WizAPI.QueryWithRetryLive (w : WizAPI) (env : HTTPEnv) (wire : Wire) (query : String)
    (queryVariables : GoMap JSONValue) : LiveRun :=
  let maxRetries := 3
  let retryDelay := 2
  let data : GoMap JSONValue := [("query", .string query), ("variables", .object queryVariables)]
  match env.jsonMarshal (.object data) with
  | .error err =>
    { result := .error err, trace := [.log ("Error marshaling query data: " ++ err ++ "\n")]
      delivered := [] }
  | .ok jsonData =>
    match httpNewRequest env "POST" w.ClientQueryURL jsonData with
    | .error err =>
      { result := .error err, trace := [.log ("Error creating request: " ++ err ++ "\n")]
        delivered := [] }
    | .ok request0 =>
      let request := ((request0.headerSet "Authorization" ("Bearer " ++ w.AuthToken)).headerAdd
        "Accept" "application/json").headerSet "Content-Type" "application/json"
      let st := retryLoopLive w wire retryDelay maxRetries 0
        { response := none, err := none, request := { request := request, unread := jsonData }
          delivered := [], trace := [] }
      match st.err with
      | some err => { result := .error err, trace := st.trace, delivered := st.delivered }
      | none =>
        match st.response with
        | some response =>
          if !w.RetryableResponseStatusCode response.StatusCode then
            { result := .ok response, trace := st.trace, delivered := st.delivered }
          else
            { result := .error ("max retries reached with status code: " ++
                toString response.StatusCode)
              trace := st.trace, delivered := st.delivered }
        | none => { result := .nilDeref, trace := st.trace, delivered := st.delivered }

/-- A client whose transport sends the body as the reader of the request yields
it, reading it to the end, and does not call `GetBody` (the HTTP/2 transport).
`server n` is the outcome of the `n`-th call; a call that fails at transport
level sends nothing and leaves the body as it found it. -/
def wireStreaming (server : Nat → DoOutcome) : Wire :=
  { Do := fun n r =>
      match server n with
      | .resp x => { outcome := .resp x, delivered := some r.unread, unreadAfter := "" }
      | .err e => { outcome := .err e, delivered := none, unreadAfter := r.unread } }

/-- A client whose transport, finding the body of the request read, rewinds it
through `GetBody` before it sends (the HTTP/1.1 transport on a connection it
reuses). `server n` is the outcome of the `n`-th call; a call that fails at
transport level sends nothing and leaves the body as it found it. -/
def wireRewinding (server : Nat → DoOutcome) : Wire :=
  { Do := fun n r =>
      match server n with
      | .resp x =>
        { outcome := .resp x
          delivered := some (if r.unread = "" then r.request.Body else r.unread)
          unreadAfter := "" }
      | .err e => { outcome := .err e, delivered := none, unreadAfter := r.unread } }

/-- The requests handed to `Session.Do` by a trace, in order. -/
def requestsOf : List Event → List Request
  | [] => []
  | .doRequest _ req :: rest => req :: requestsOf rest
  | .postForm _ _ :: rest => requestsOf rest
  | .closeBody _ :: rest => requestsOf rest
  | .sleep _ :: rest => requestsOf rest
  | .log _ :: rest => requestsOf rest

/-- A client holding the token `tok`. -/
def clientWithToken : WizAPI :=
  { NewWizAPI "id" "secret" "https://auth" "https://api" with AuthToken := "tok" }

/-- The position of the first byte `c` of `s`, if any. -/
def firstIndexByte (c : UInt8) : List UInt8 → Option Nat
  | [] => none
  | b :: rest => if b = c then some 0 else (firstIndexByte c rest).map (· + 1)

/-- The position of the last byte `c` of `s`, if any. -/
def lastIndexByte (c : UInt8) : List UInt8 → Option Nat
  | [] => none
  | b :: rest =>
    match lastIndexByte c rest with
    | some i => some (i + 1)
    | none => if b = c then some 0 else none

/-- Function `strings.Index` for a one-byte substring: the index of its first
occurrence, or -1. -/
def stringsIndex (s : List UInt8) (c : UInt8) : Int :=
  match firstIndexByte c s with
  | some i => (i : Int)
  | none => -1

/-- Function `strings.LastIndex` for a one-byte substring: the index of its last
occurrence, or -1. -/
def stringsLastIndex (s : List UInt8) (c : UInt8) : Int :=
  match lastIndexByte c s with
  | some i => (i : Int)
  | none => -1

/-- The byte of the opening brace. -/
def openBrace : UInt8 := 123

/-- The byte of the closing brace. -/
def closeBrace : UInt8 := 125

/-- Function `extractJSON`; a Go string is its sequence of bytes, and the slice
expression `output[startIndex : endIndex+1]` keeps the bytes from `startIndex` to
`endIndex`. -/
def extractJSON (output : List UInt8) : Except GoError (List UInt8) :=
  let startIndex := stringsIndex output openBrace
  if startIndex = -1 then .error "no opening brace of JSON object found"
  else
    let endIndex := stringsLastIndex output closeBrace
    if endIndex = -1 then .error "no closing brace of JSON object found"
    else if endIndex + 1 ≤ startIndex then .error "invalid JSON boundaries found"
    else .ok ((output.drop startIndex.toNat).take ((endIndex + 1).toNat - startIndex.toNat))

/-- An entry of a directory listing (`os.DirEntry`): its name and whether it is a
directory. -/
structure DirEntry where
  Name : String
  IsDir : Bool
  deriving Repr, DecidableEq

/-- The operating system as `ListTopLevelDirectories` sees it: `runtime.GOOS`,
the error of `os.Stat` (`none` is nil), the result of `os.ReadDir`, and
`filepath.Join`. -/
structure OSEnv where
  GOOS : String
  Stat : String → Option GoError
  ReadDir : String → Except GoError (List DirEntry)
  Join : String → String → String

/-- The map `exclusions`. -/
def exclusions : GoMap Bool :=
  [ ("/lost+found", true), ("/media", true), ("/mnt", true), ("/proc", true), ("/tmp", true)
  , ("/sys", true), ("/cores", true), ("D:\\", true) ]

/-- The index expression `exclusions[fullPath]`: false for a missing key. -/
def isExcluded (fullPath : String) : Bool :=
  (GoMap.lookup exclusions fullPath).getD false

/-- Function `ListTopLevelDirectories`. -/
def ListTopLevelDirectories (os : OSEnv) (rootPath : String) : Except GoError (List String) :=
  if os.GOOS = "windows" then
    .ok ("ABCDEFGHIJKLMNOPQRSTUVWXYZ".toList.filterMap fun letter =>
      let drive := String.singleton letter ++ ":\\"
      match os.Stat drive with
      | none => some drive
      | some _ => none)
  else
    match os.ReadDir rootPath with
    | .error err => .error err
    | .ok items =>
      .ok (items.filterMap fun item =>
        if item.IsDir then
          let fullPath := os.Join rootPath item.Name
          if !isExcluded fullPath then some fullPath else none
        else none)

/-- A Windows system on which only the drive `D:` exists. -/
def windowsWithDriveD : OSEnv :=
  { GOOS := "windows"
    Stat := fun path => if path = "D:\\" then none else some "The system cannot find the path"
    ReadDir := fun _ => .error "not a directory"
    Join := fun dir name => dir ++ "\\" ++ name }

/-- A Linux system whose root holds the directories `etc`, `home` and `tmp` and
the file `vmlinuz`. -/
def linuxSample : OSEnv :=
  { GOOS := "linux"
    Stat := fun _ => none
    ReadDir := fun _ => .ok
      [ { Name := "etc", IsDir := true }, { Name := "home", IsDir := true }
      , { Name := "tmp", IsDir := true }, { Name := "vmlinuz", IsDir := false } ]
    Join := fun dir name => if dir = "/" then "/" ++ name else dir ++ "/" ++ name }

/-! # Theorems -/

/-! ## Retryable status codes -/

/-- Characterisation of the retryable set, for use in the proofs below. -/
theorem retryable_iff (w : WizAPI) (c : Int) :
    w.RetryableResponseStatusCode c = true ↔ c = 429 ∨ c = 502 ∨ c = 503 ∨ c = 504 := by
  simp [WizAPI.RetryableResponseStatusCode]

/-- C4: `RetryableResponseStatusCode c` is true exactly for 429, 502, 503 and
504, for every integer `c` (so not for 200, 400, 401, 404, 500), and its result
is the same for every receiver. -/
theorem RetryableResponseStatusCode_iff :
    (∀ (w : WizAPI) (c : Int),
      w.RetryableResponseStatusCode c = true ↔ c = 429 ∨ c = 502 ∨ c = 503 ∨ c = 504) ∧
    (∀ w : WizAPI,
      w.RetryableResponseStatusCode 200 = false ∧ w.RetryableResponseStatusCode 400 = false ∧
      w.RetryableResponseStatusCode 401 = false ∧ w.RetryableResponseStatusCode 404 = false ∧
      w.RetryableResponseStatusCode 500 = false) ∧
    (∀ (w1 w2 : WizAPI) (c : Int),
      w1.RetryableResponseStatusCode c = w2.RetryableResponseStatusCode c) := by
  refine ⟨?_, ?_, ?_⟩
  · intro w c
    exact retryable_iff w c
  · intro w
    simp [WizAPI.RetryableResponseStatusCode]
  · intro w1 w2 c
    rfl

/-! ## The transport retrier `QueryWithRetry` -/

/-- C1: when no attempt yields a response with a non-retryable status and the
third attempt yields a response with a retryable status `s` (429, 502, 503 or
504), `QueryWithRetry` makes exactly 3 attempts, waits 2 seconds between
consecutive attempts, and returns no response and the error
`max retries reached with status code: s`. -/
theorem QueryWithRetry_retries_exhausted (w : WizAPI) (env : HTTPEnv) (query : String)
    (queryVariables : GoMap JSONValue) (jsonData : String) (r3 : Response) (s : Int)
    (hm : env.jsonMarshal (queryData query queryVariables) = .ok jsonData)
    (hu : env.urlParseError w.ClientQueryURL = none)
    (hno : ∀ i, i < 3 → ∀ r, env.Do i = .resp r →
      w.RetryableResponseStatusCode r.StatusCode = true)
    (h3 : env.Do 2 = .resp r3) (hs : r3.StatusCode = s)
    (hret : s = 429 ∨ s = 502 ∨ s = 503 ∨ s = 504) :
    (w.QueryWithRetry env query queryVariables).1 =
        .error ("max retries reached with status code: " ++ toString s) ∧
      steps (w.QueryWithRetry env query queryVariables).2 =
        ((List.range 3).map Step.attempt).intersperse (.wait 2) ++ [.wait 2] := by
  subst hs
  have hr3 : w.RetryableResponseStatusCode r3.StatusCode = true :=
    (retryable_iff w _).2 hret
  simp only [queryData] at hm
  rcases h0 : env.Do 0 with e0 | r0 <;> rcases h1 : env.Do 1 with e1 | r1
  · simp [WizAPI.QueryWithRetry, retryLoop, httpNewRequest, hm, hu, h0, h1, h3, hr3, steps,
      Event.toStep, List.range_succ]
  · have hr1 := hno 1 (by omega) r1 h1
    simp [WizAPI.QueryWithRetry, retryLoop, httpNewRequest, hm, hu, h0, h1, h3, hr3, hr1,
      steps, Event.toStep, List.range_succ]
  · have hr0 := hno 0 (by omega) r0 h0
    simp [WizAPI.QueryWithRetry, retryLoop, httpNewRequest, hm, hu, h0, h1, h3, hr3, hr0,
      steps, Event.toStep, List.range_succ]
  · have hr0 := hno 0 (by omega) r0 h0
    have hr1 := hno 1 (by omega) r1 h1
    simp [WizAPI.QueryWithRetry, retryLoop, httpNewRequest, hm, hu, h0, h1, h3, hr3, hr0, hr1,
      steps, Event.toStep, List.range_succ]

/-- Witness of C1: three answers with status 503. -/
theorem QueryWithRetry_retries_exhausted_witness :
    ((NewWizAPI "id" "secret" "https://auth" "https://api").QueryWithRetry
        (envAlways 503) "q" []).1 =
        .error ("max retries reached with status code: " ++ toString (503 : Int)) ∧
      steps ((NewWizAPI "id" "secret" "https://auth" "https://api").QueryWithRetry
        (envAlways 503) "q" []).2 =
        ((List.range 3).map Step.attempt).intersperse (.wait 2) ++ [.wait 2] :=
  QueryWithRetry_retries_exhausted (NewWizAPI "id" "secret" "https://auth" "https://api")
    (envAlways 503) "q" [] "body" { StatusCode := 503, Status := "", Body := "" } 503 rfl rfl
    (by intro i _ r h; simp [envAlways] at h; subst h; rfl) rfl rfl (by decide)

/-- C2: when attempt `k` (`1 ≤ k ≤ 3`) is the first to yield a response whose
status is outside 429, 502, 503, 504, `QueryWithRetry` returns exactly that
response with a nil error after exactly `k` attempts, with a 2-second wait
between consecutive attempts only; for `k = 1` there is a single attempt and no
wait. -/
theorem QueryWithRetry_returns_first_non_retryable (w : WizAPI) (env : HTTPEnv)
    (query : String) (queryVariables : GoMap JSONValue) (jsonData : String) (k : Nat)
    (r : Response)
    (hm : env.jsonMarshal (queryData query queryVariables) = .ok jsonData)
    (hu : env.urlParseError w.ClientQueryURL = none)
    (hk1 : 1 ≤ k) (hk3 : k ≤ 3)
    (hk : env.Do (k - 1) = .resp r)
    (hnon : ¬ (r.StatusCode = 429 ∨ r.StatusCode = 502 ∨ r.StatusCode = 503 ∨
      r.StatusCode = 504))
    (hfirst : ∀ i, i < k - 1 → ∀ r1, env.Do i = .resp r1 →
      (r1.StatusCode = 429 ∨ r1.StatusCode = 502 ∨ r1.StatusCode = 503 ∨
        r1.StatusCode = 504)) :
    (w.QueryWithRetry env query queryVariables).1 = .ok r ∧
      steps (w.QueryWithRetry env query queryVariables).2 =
        ((List.range k).map Step.attempt).intersperse (.wait 2) ∧
      (k = 1 → steps (w.QueryWithRetry env query queryVariables).2 = [.attempt 0]) := by
  have hr : w.RetryableResponseStatusCode r.StatusCode = false := by
    rw [Bool.eq_false_iff]
    exact fun h => hnon ((retryable_iff w _).1 h)
  have hf : ∀ i, i < k - 1 → ∀ r1, env.Do i = .resp r1 →
      w.RetryableResponseStatusCode r1.StatusCode = true :=
    fun i hi r1 h => (retryable_iff w _).2 (hfirst i hi r1 h)
  simp only [queryData] at hm
  obtain rfl | rfl | rfl : k = 1 ∨ k = 2 ∨ k = 3 := by omega
  · simp only [Nat.sub_self] at hk
    simp [WizAPI.QueryWithRetry, retryLoop, httpNewRequest, hm, hu, hk, hr, steps,
      Event.toStep, List.range_succ]
  · have hk1 : env.Do 1 = .resp r := hk
    rcases h0 : env.Do 0 with e0 | r0
    · simp [WizAPI.QueryWithRetry, retryLoop, httpNewRequest, hm, hu, h0, hk1, hr, steps,
        Event.toStep, List.range_succ]
    · have hr0 := hf 0 (by omega) r0 h0
      simp [WizAPI.QueryWithRetry, retryLoop, httpNewRequest, hm, hu, h0, hk1, hr, hr0, steps,
        Event.toStep, List.range_succ]
  · have hk2 : env.Do 2 = .resp r := hk
    rcases h0 : env.Do 0 with e0 | r0 <;> rcases h1 : env.Do 1 with e1 | r1
    · simp [WizAPI.QueryWithRetry, retryLoop, httpNewRequest, hm, hu, h0, h1, hk2, hr, steps,
        Event.toStep, List.range_succ]
    · have hr1 := hf 1 (by omega) r1 h1
      simp [WizAPI.QueryWithRetry, retryLoop, httpNewRequest, hm, hu, h0, h1, hk2, hr, hr1,
        steps, Event.toStep, List.range_succ]
    · have hr0 := hf 0 (by omega) r0 h0
      simp [WizAPI.QueryWithRetry, retryLoop, httpNewRequest, hm, hu, h0, h1, hk2, hr, hr0,
        steps, Event.toStep, List.range_succ]
    · have hr0 := hf 0 (by omega) r0 h0
      have hr1 := hf 1 (by omega) r1 h1
      simp [WizAPI.QueryWithRetry, retryLoop, httpNewRequest, hm, hu, h0, h1, hk2, hr, hr0,
        hr1, steps, Event.toStep, List.range_succ]

/-- Witness of C2: the first answer has status 500. -/
theorem QueryWithRetry_returns_first_non_retryable_witness :
    ((NewWizAPI "id" "secret" "https://auth" "https://api").QueryWithRetry
        (envAlways 500) "q" []).1 = .ok { StatusCode := 500, Status := "", Body := "" } ∧
      steps ((NewWizAPI "id" "secret" "https://auth" "https://api").QueryWithRetry
        (envAlways 500) "q" []).2 =
        ((List.range 1).map Step.attempt).intersperse (.wait 2) ∧
      (1 = 1 → steps ((NewWizAPI "id" "secret" "https://auth" "https://api").QueryWithRetry
        (envAlways 500) "q" []).2 = [.attempt 0]) :=
  QueryWithRetry_returns_first_non_retryable
    (NewWizAPI "id" "secret" "https://auth" "https://api") (envAlways 500) "q" [] "body" 1
    { StatusCode := 500, Status := "", Body := "" } rfl rfl (by decide) (by decide) rfl
    (by decide) (by intro i hi; omega)

/-- C3: whenever no attempt yields a non-retryable response and the third
attempt is a transport error, `QueryWithRetry` makes exactly 3 attempts and
returns a nil response with that third error, unchanged; in particular when all
three attempts are transport errors. -/
theorem QueryWithRetry_last_transport_error (w : WizAPI) (env : HTTPEnv) (query : String)
    (queryVariables : GoMap JSONValue) (jsonData : String) (e3 : GoError)
    (hm : env.jsonMarshal (queryData query queryVariables) = .ok jsonData)
    (hu : env.urlParseError w.ClientQueryURL = none)
    (hno : ∀ i, i < 3 → ∀ r, env.Do i = .resp r →
      w.RetryableResponseStatusCode r.StatusCode = true)
    (h3 : env.Do 2 = .err e3) :
    (w.QueryWithRetry env query queryVariables).1 = .error e3 ∧
      steps (w.QueryWithRetry env query queryVariables).2 =
        ((List.range 3).map Step.attempt).intersperse (.wait 2) ++ [.wait 2] := by
  simp only [queryData] at hm
  rcases h0 : env.Do 0 with e0 | r0 <;> rcases h1 : env.Do 1 with e1 | r1
  · simp [WizAPI.QueryWithRetry, retryLoop, httpNewRequest, hm, hu, h0, h1, h3, steps,
      Event.toStep, List.range_succ]
  · have hr1 := hno 1 (by omega) r1 h1
    simp [WizAPI.QueryWithRetry, retryLoop, httpNewRequest, hm, hu, h0, h1, h3, hr1,
      steps, Event.toStep, List.range_succ]
  · have hr0 := hno 0 (by omega) r0 h0
    simp [WizAPI.QueryWithRetry, retryLoop, httpNewRequest, hm, hu, h0, h1, h3, hr0,
      steps, Event.toStep, List.range_succ]
  · have hr0 := hno 0 (by omega) r0 h0
    have hr1 := hno 1 (by omega) r1 h1
    simp [WizAPI.QueryWithRetry, retryLoop, httpNewRequest, hm, hu, h0, h1, h3, hr0, hr1,
      steps, Event.toStep, List.range_succ]

/-- Witness of C3: three refused connections; the error of the third is returned. -/
theorem QueryWithRetry_last_transport_error_witness :
    ((NewWizAPI "id" "secret" "https://auth" "https://api").QueryWithRetry
        (envRefused fun n => "connection refused #" ++ toString n) "q" []).1 =
        .error ("connection refused #" ++ toString 2) ∧
      steps ((NewWizAPI "id" "secret" "https://auth" "https://api").QueryWithRetry
        (envRefused fun n => "connection refused #" ++ toString n) "q" []).2 =
        ((List.range 3).map Step.attempt).intersperse (.wait 2) ++ [.wait 2] :=
  QueryWithRetry_last_transport_error (NewWizAPI "id" "secret" "https://auth" "https://api")
    (envRefused fun n => "connection refused #" ++ toString n) "q" [] "body" _ rfl rfl
    (by intro i _ r h; simp [envRefused] at h) rfl

/-! ## The query operations -/

/-- Containment `strings.Contains` as an infix relation on the characters. -/
theorem stringsContains_iff (s substr : String) :
    stringsContains s substr = true ↔ substr.toList <:+: s.toList := by
  simp only [stringsContains, List.any_eq_true, List.mem_tails, List.isPrefixOf_iff_prefix]
  constructor
  · rintro ⟨t, ht, hp⟩
    exact List.IsInfix.trans hp.isInfix ht.isInfix
  · intro h
    obtain ⟨t, hp, ht⟩ := List.infix_iff_prefix_suffix.1 h
    exact ⟨t, ht, hp⟩

/-- Every message of the list occurs in the text of the formatted elements. -/
theorem message_infix_formatErrorList (errs : List GraphQLResourceError)
    (e : GraphQLResourceError) (he : e ∈ errs) :
    e.Message.toList <:+: (formatErrorList errs).toList := by
  induction errs with
  | nil => cases he
  | cons a rest ih =>
    cases rest with
    | nil =>
      have hea : e = a := by simpa using he
      subst hea
      simp only [formatErrorList, String.toList, String.data_append]
      exact ⟨_, _, rfl⟩
    | cons b rest2 =>
      simp only [formatErrorList, String.toList, String.data_append]
      rcases List.mem_cons.1 he with hea | her
      · subst hea
        exact ⟨"\x7b".data, "\x7d".data ++ " ".data ++ (formatErrorList (b :: rest2)).data,
          by simp [List.append_assoc]⟩
      · exact List.IsInfix.trans (ih her) (List.suffix_append _ _).isInfix

/-- Every message of the list occurs in the `graphql errors` error text. -/
theorem message_listed (errs : List GraphQLResourceError) (e : GraphQLResourceError)
    (he : e ∈ errs) :
    stringsContains ("graphql errors: " ++ formatErrors errs) e.Message = true := by
  rw [stringsContains_iff]
  have h := message_infix_formatErrorList errs e he
  simp only [formatErrors, String.toList, String.data_append] at h ⊢
  exact List.IsInfix.trans h
    ⟨"graphql errors: ".data ++ "[".data, "]".data, by simp [List.append_assoc]⟩

/-- The contract `SurfacesAPIErrors` for any operation that maps the transport
result and the decoded body the way the three query operations do. -/
theorem surfacesAPIErrors_of_eq {α : Type} (run : GoResult α) (transport : GoResult Response)
    (decode : String → Except GoError α) (errorsOf : α → List GraphQLResourceError)
    (wrap : GoError → GoError)
    (hrun : run =
      match transport with
      | .error err => .error (wrap err)
      | .nilDeref => .nilDeref
      | .ok response =>
        match decode response.Body with
        | .error err => .error ("error unmarshaling response: " ++ err)
        | .ok v =>
          if (errorsOf v).length > 0 then
            .error ("graphql errors: " ++ formatErrors (errorsOf v))
          else .ok v) :
    SurfacesAPIErrors run transport decode errorsOf := by
  subst hrun
  refine ⟨fun response v ht hd hne => ⟨?_, fun e he => message_listed _ e he⟩, fun v => ?_⟩
  · subst ht
    simp [hd, List.length_pos, hne]
  · cases transport with
    | ok response =>
      cases hd : decode response.Body with
      | error err => simp [hd]
      | ok u =>
        by_cases hu : errorsOf u = []
        · simp only [hd, hu, List.length_nil, gt_iff_lt, lt_self_iff_false, if_false,
            GoResult.ok.injEq]
          constructor
          · rintro rfl; exact ⟨response, rfl, hd, hu⟩
          · rintro ⟨response1, h1, h2, _⟩
            cases h1
            rw [hd] at h2
            cases h2
            rfl
        · have hpos : 0 < (errorsOf u).length := List.length_pos.2 hu
          constructor
          · intro h
            simp [hd, hpos] at h
          · rintro ⟨response1, h1, h2, h3⟩
            cases h1
            rw [hd] at h2
            cases h2
            exact absurd h3 hu
    | error err => simp
    | nilDeref => simp

/-- C5: each query operation (`RequestSecurityScanUpload`, `QuerySystemActivity`,
`GraphResourceSearch`) returns a nil result and the `graphql errors` error listing
the messages whenever the transport returned a response whose body decodes to a
value with a non-empty errors list, whatever its data field holds; and it returns
the decoded value exactly when the transport succeeded, the body decoded, and the
errors list is empty. -/
theorem query_operations_surface_api_errors (w : WizAPI) (env : HTTPEnv) :
    (∀ filename : String,
      SurfacesAPIErrors (w.RequestSecurityScanUpload env filename).1
        (w.QueryWithRetry env graphFileUploadRequest [("filename", .string filename)]).1
        env.decodeUpload (fun v => v.Errors)) ∧
    (∀ systemActivityID : String,
      SurfacesAPIErrors (w.QuerySystemActivity env systemActivityID).1
        (w.QueryWithRetry env graphSystemActivityQuery [("id", .string systemActivityID)]).1
        env.decodeActivity (fun v => v.Errors)) ∧
    (∀ cfg : Config,
      SurfacesAPIErrors (w.GraphResourceSearch env cfg).1
        (w.QueryWithRetry env graphResourceSearchQuery
          (resourceCreateQueryVariables cfg.ScanCloudType cfg.ScanProviderID)).1
        env.decodeResource (fun v => v.Errors)) := by
  refine ⟨fun filename => ?_, fun systemActivityID => ?_, fun cfg => ?_⟩
  · apply surfacesAPIErrors_of_eq _ _ _ _ (fun err => "error querying with retry: " ++ err)
    unfold WizAPI.RequestSecurityScanUpload
    dsimp only
    generalize w.QueryWithRetry env graphFileUploadRequest
      [("filename", .string filename)] = qr
    rcases qr with ⟨res, tr⟩
    cases res with
    | ok response =>
      dsimp only
      cases env.decodeUpload response.Body with
      | error err => rfl
      | ok u => dsimp only; split <;> rfl
    | error err => rfl
    | nilDeref => rfl
  · apply surfacesAPIErrors_of_eq _ _ _ _
      (fun err => "error querying system activity with retry: " ++ err)
    unfold WizAPI.QuerySystemActivity
    dsimp only
    generalize w.QueryWithRetry env graphSystemActivityQuery
      [("id", .string systemActivityID)] = qr
    rcases qr with ⟨res, tr⟩
    cases res with
    | ok response =>
      dsimp only
      cases env.decodeActivity response.Body with
      | error err => rfl
      | ok u => dsimp only; split <;> rfl
    | error err => rfl
    | nilDeref => rfl
  · apply surfacesAPIErrors_of_eq _ _ _ _ (fun err => "error querying with retry: " ++ err)
    unfold WizAPI.GraphResourceSearch
    dsimp only
    generalize w.QueryWithRetry env graphResourceSearchQuery
      (resourceCreateQueryVariables cfg.ScanCloudType cfg.ScanProviderID) = qr
    rcases qr with ⟨res, tr⟩
    cases res with
    | ok response =>
      dsimp only
      cases env.decodeResource response.Body with
      | error err => rfl
      | ok u => dsimp only; split <;> rfl
    | error err => rfl
    | nilDeref => rfl

/-- Witness of C5: the body decodes to a fully populated upload slot together
with one error message; the operation returns the `graphql errors` error. -/
theorem query_operations_surface_api_errors_witness :
    ((NewWizAPI "id" "secret" "https://auth" "https://api").RequestSecurityScanUpload
        envPopulatedWithErrors "state-current.json").1 =
      .error ("graphql errors: " ++ formatErrors [{ Message := "access denied" }]) :=
  (((query_operations_surface_api_errors (NewWizAPI "id" "secret" "https://auth" "https://api")
      envPopulatedWithErrors).1 "state-current.json").1
    { StatusCode := 200, Status := "", Body := "" }
    { Data := { RequestSecurityScanUpload := { Upload :=
        { ID := "u1", URL := "https://x/put", SystemActivityId := "a1" } } }
      Errors := [{ Message := "access denied" }] }
    rfl rfl (by simp)).1

/-! ## The authenticator -/

/-- Method `Authenticate` when the request fails at transport level. -/
theorem Authenticate_transport_error (w : WizAPI) (env : HTTPEnv) (e : GoError)
    (hp : env.PostForm w.ClientAuthURL (authRequestData w) = .err e) :
    w.Authenticate env =
      (w, some ("error authenticating to the Wiz API: " ++ e),
        [.postForm w.ClientAuthURL (authRequestData w)]) := by
  simp [WizAPI.Authenticate, hp]

/-- Method `Authenticate` when the status is not 200. -/
theorem Authenticate_bad_status (w : WizAPI) (env : HTTPEnv) (response : Response)
    (hp : env.PostForm w.ClientAuthURL (authRequestData w) = .resp response)
    (hs : response.StatusCode ≠ 200) :
    w.Authenticate env =
      (w, some ("authentication failed with status: " ++ response.Status ++ " - " ++
          response.Body),
        [.postForm w.ClientAuthURL (authRequestData w), .closeBody response]) := by
  simp [WizAPI.Authenticate, hp, hs]

/-- Method `Authenticate` when the body does not decode. -/
theorem Authenticate_decode_error (w : WizAPI) (env : HTTPEnv) (response : Response)
    (e : GoError)
    (hp : env.PostForm w.ClientAuthURL (authRequestData w) = .resp response)
    (hs : response.StatusCode = 200) (hd : env.decodeMap response.Body = .error e) :
    w.Authenticate env =
      (w, some ("error parsing authentication response: " ++ e),
        [.postForm w.ClientAuthURL (authRequestData w), .closeBody response]) := by
  simp [WizAPI.Authenticate, hp, hs, hd]

/-- Method `Authenticate` when the decoded body has a string `access_token`. -/
theorem Authenticate_token (w : WizAPI) (env : HTTPEnv) (response : Response)
    (m : GoMap JSONValue) (token : String)
    (hp : env.PostForm w.ClientAuthURL (authRequestData w) = .resp response)
    (hs : response.StatusCode = 200) (hd : env.decodeMap response.Body = .ok m)
    (hl : GoMap.lookup m "access_token" = some (.string token)) :
    w.Authenticate env =
      ({ w with AuthToken := token }, none,
        [.postForm w.ClientAuthURL (authRequestData w), .closeBody response]) := by
  simp [WizAPI.Authenticate, hp, hs, hd, hl]

/-- Method `Authenticate` when the decoded body has no string `access_token`. -/
theorem Authenticate_no_token (w : WizAPI) (env : HTTPEnv) (response : Response)
    (m : GoMap JSONValue)
    (hp : env.PostForm w.ClientAuthURL (authRequestData w) = .resp response)
    (hs : response.StatusCode = 200) (hd : env.decodeMap response.Body = .ok m)
    (hl : ∀ token, GoMap.lookup m "access_token" ≠ some (.string token)) :
    w.Authenticate env =
      (w, some "no access token found in the response",
        [.postForm w.ClientAuthURL (authRequestData w), .closeBody response]) := by
  simp only [WizAPI.Authenticate, hp, hs, hd, ne_eq, not_true_eq_false, if_false]

/-- C10: `Authenticate` makes exactly one request; it succeeds if and only if
the request completes, the status is 200 and the body decodes to an object whose
`access_token` entry is a string, and then `AuthToken` is that string and no
other field changes; a status other than 200 gives an error carrying the status
and the body; a missing or non-string `access_token` gives
`no access token found in the response`; every failure leaves the client
unchanged. -/
theorem Authenticate_contract (w : WizAPI) (env : HTTPEnv) :
    (w.Authenticate env).2.2.filter Event.isRequest =
        [.postForm w.ClientAuthURL (authRequestData w)] ∧
    ((w.Authenticate env).2.1 = none ↔
      ∃ response m token,
        env.PostForm w.ClientAuthURL (authRequestData w) = .resp response ∧
        response.StatusCode = 200 ∧ env.decodeMap response.Body = .ok m ∧
        GoMap.lookup m "access_token" = some (.string token)) ∧
    (∀ response m token,
      env.PostForm w.ClientAuthURL (authRequestData w) = .resp response →
      response.StatusCode = 200 → env.decodeMap response.Body = .ok m →
      GoMap.lookup m "access_token" = some (.string token) →
      (w.Authenticate env).2.1 = none ∧
        (w.Authenticate env).1 = { w with AuthToken := token }) ∧
    (∀ response,
      env.PostForm w.ClientAuthURL (authRequestData w) = .resp response →
      response.StatusCode ≠ 200 →
      (w.Authenticate env).2.1 =
        some ("authentication failed with status: " ++ response.Status ++ " - " ++
          response.Body)) ∧
    (∀ response m,
      env.PostForm w.ClientAuthURL (authRequestData w) = .resp response →
      response.StatusCode = 200 → env.decodeMap response.Body = .ok m →
      (∀ token, GoMap.lookup m "access_token" ≠ some (.string token)) →
      (w.Authenticate env).2.1 = some "no access token found in the response") ∧
    ((w.Authenticate env).2.1 ≠ none → (w.Authenticate env).1 = w) := by
  cases hp : env.PostForm w.ClientAuthURL (authRequestData w) with
  | err e =>
    rw [Authenticate_transport_error w env e hp]
    simp [Event.isRequest]
  | resp response =>
    by_cases hs : response.StatusCode = 200
    · cases hd : env.decodeMap response.Body with
      | error e =>
        rw [Authenticate_decode_error w env response e hp hs hd]
        refine ⟨by simp [Event.isRequest], ⟨fun h => by simp at h, ?_⟩, ?_, ?_, ?_, fun _ => rfl⟩
        · rintro ⟨r1, m1, t, h1, -, h3, -⟩
          cases h1
          rw [hd] at h3
          cases h3
        · intro r1 m1 t h1 _ h3
          cases h1
          rw [hd] at h3
          cases h3
        · intro r1 h1 h2
          cases h1
          exact absurd hs h2
        · intro r1 m1 h1 _ h3
          cases h1
          rw [hd] at h3
          cases h3
      | ok m =>
        by_cases hl : ∃ token, GoMap.lookup m "access_token" = some (.string token)
        · obtain ⟨token, hl⟩ := hl
          rw [Authenticate_token w env response m token hp hs hd hl]
          refine ⟨by simp [Event.isRequest], ⟨fun _ => ⟨response, m, token, rfl, hs, hd, hl⟩,
            fun _ => rfl⟩, ?_, ?_, ?_, fun h => absurd rfl h⟩
          · intro r1 m1 t h1 _ h3 h4
            cases h1
            rw [hd] at h3
            cases h3
            rw [hl] at h4
            cases h4
            exact ⟨rfl, rfl⟩
          · intro r1 h1 h2
            cases h1
            exact absurd hs h2
          · intro r1 m1 h1 _ h3 h4
            cases h1
            rw [hd] at h3
            cases h3
            exact absurd hl (h4 token)
        · have hl1 : ∀ token, GoMap.lookup m "access_token" ≠ some (.string token) :=
            fun token h => hl ⟨token, h⟩
          rw [Authenticate_no_token w env response m hp hs hd hl1]
          refine ⟨by simp [Event.isRequest], ⟨fun h => by simp at h, ?_⟩, ?_, ?_,
            fun _ _ _ _ _ _ => rfl, fun _ => rfl⟩
          · rintro ⟨r1, m1, t, h1, -, h3, h4⟩
            cases h1
            rw [hd] at h3
            cases h3
            exact absurd h4 (hl1 t)
          · intro r1 m1 t h1 _ h3 h4
            cases h1
            rw [hd] at h3
            cases h3
            exact absurd h4 (hl1 t)
          · intro r1 h1 h2
            cases h1
            exact absurd hs h2
    · rw [Authenticate_bad_status w env response hp hs]
      refine ⟨by simp [Event.isRequest], ⟨fun h => by simp at h, ?_⟩, ?_, ?_, ?_, fun _ => rfl⟩
      · rintro ⟨r1, m1, t, h1, h2, -, -⟩
        cases h1
        exact absurd h2 hs
      · intro r1 m1 t h1 h2
        cases h1
        exact absurd h2 hs
      · intro r1 h1 _
        cases h1
        rfl
      · intro r1 m1 h1 h2
        cases h1
        exact absurd h2 hs

/-! ## The activity polling loop of `main` -/

/-- Shape of every run of the polling part of `main`: for some `k` between 1
and 5, queries `1..k-1` failed with a `Resource not found` error and query `k`
either succeeded, and its status is printed, or failed with an error that does
not contain `Resource not found` or at `k = 5`, and that error is printed. -/
theorem pollAndReport_shape (svc : Services) (systemActivityId : String) :
    ∃ k, 1 ≤ k ∧ k ≤ 5 ∧
      (∀ i, i < k - 1 → notFound (svc.QuerySystemActivity i systemActivityId) = true) ∧
      ((∃ r, svc.QuerySystemActivity (k - 1) systemActivityId = .ok r ∧
          pollAndReport svc systemActivityId =
            (List.replicate (k - 1) (retryBlock systemActivityId)).flatten ++
              [ .query systemActivityId
              , .print ("System Activity Status: " ++ r.Data.SystemActivity.Status ++ "\n") ]) ∨
        (∃ e, svc.QuerySystemActivity (k - 1) systemActivityId = .error e ∧
          (k = 5 ∨ stringsContains e "Resource not found" = false) ∧
          pollAndReport svc systemActivityId =
            (List.replicate (k - 1) (retryBlock systemActivityId)).flatten ++
              [ .query systemActivityId
              , .print ("Error querying system activity: " ++ e ++ "\n") ])) := by
  rcases h0 : svc.QuerySystemActivity 0 systemActivityId with e0 | r0
  · by_cases c0 : stringsContains e0 "Resource not found" = true
    · rcases h1 : svc.QuerySystemActivity 1 systemActivityId with e1 | r1
      · by_cases c1 : stringsContains e1 "Resource not found" = true
        · rcases h2 : svc.QuerySystemActivity 2 systemActivityId with e2 | r2
          · by_cases c2 : stringsContains e2 "Resource not found" = true
            · rcases h3 : svc.QuerySystemActivity 3 systemActivityId with e3 | r3
              · by_cases c3 : stringsContains e3 "Resource not found" = true
                · rcases h4 : svc.QuerySystemActivity 4 systemActivityId with e4 | r4
                  · refine ⟨5, by omega, by omega, ?_, Or.inr ⟨e4, h4, Or.inl rfl, ?_⟩⟩
                    · intro i hi
                      interval_cases i <;> simp [notFound, h0, c0, h1, c1, h2, c2, h3, c3]
                    · simp [pollAndReport, pollLoop, retryBlock, h0, c0, h1, c1, h2, c2, h3, c3, h4]
                  · refine ⟨5, by omega, by omega, ?_, Or.inl ⟨r4, h4, ?_⟩⟩
                    · intro i hi
                      interval_cases i <;> simp [notFound, h0, c0, h1, c1, h2, c2, h3, c3]
                    · simp [pollAndReport, pollLoop, retryBlock, h0, c0, h1, c1, h2, c2, h3, c3, h4]
                · refine ⟨4, by omega, by omega, ?_, Or.inr ⟨e3, h3, Or.inr (by simpa using c3), ?_⟩⟩
                  · intro i hi
                    interval_cases i <;> simp [notFound, h0, c0, h1, c1, h2, c2]
                  · simp [pollAndReport, pollLoop, retryBlock, h0, c0, h1, c1, h2, c2, h3, c3]
              · refine ⟨4, by omega, by omega, ?_, Or.inl ⟨r3, h3, ?_⟩⟩
                · intro i hi
                  interval_cases i <;> simp [notFound, h0, c0, h1, c1, h2, c2]
                · simp [pollAndReport, pollLoop, retryBlock, h0, c0, h1, c1, h2, c2, h3]
            · refine ⟨3, by omega, by omega, ?_, Or.inr ⟨e2, h2, Or.inr (by simpa using c2), ?_⟩⟩
              · intro i hi
                interval_cases i <;> simp [notFound, h0, c0, h1, c1]
              · simp [pollAndReport, pollLoop, retryBlock, h0, c0, h1, c1, h2, c2]
          · refine ⟨3, by omega, by omega, ?_, Or.inl ⟨r2, h2, ?_⟩⟩
            · intro i hi
              interval_cases i <;> simp [notFound, h0, c0, h1, c1]
            · simp [pollAndReport, pollLoop, retryBlock, h0, c0, h1, c1, h2]
        · refine ⟨2, by omega, by omega, ?_, Or.inr ⟨e1, h1, Or.inr (by simpa using c1), ?_⟩⟩
          · intro i hi
            obtain rfl : i = 0 := by omega
            simp [notFound, h0, c0]
          · simp [pollAndReport, pollLoop, retryBlock, h0, c0, h1, c1]
      · refine ⟨2, by omega, by omega, ?_, Or.inl ⟨r1, h1, ?_⟩⟩
        · intro i hi
          obtain rfl : i = 0 := by omega
          simp [notFound, h0, c0]
        · simp [pollAndReport, pollLoop, retryBlock, h0, c0, h1]
    · refine ⟨1, by omega, by omega, ?_, Or.inr ⟨e0, h0, Or.inr (by simpa using c0), ?_⟩⟩
      · intro i hi
        omega
      · simp [pollAndReport, pollLoop, retryBlock, h0, c0]
  · refine ⟨1, by omega, by omega, ?_, Or.inl ⟨r0, h0, ?_⟩⟩
    · intro i hi
      omega
    · simp [pollAndReport, pollLoop, retryBlock, h0]

/-- The poll steps and the number of queries of a run of shape
`retryBlock ^ (k-1)`, a query and a report. -/
theorem pollSteps_of_shape (systemActivityId : String) (k : Nat) (hk1 : 1 ≤ k) (hk5 : k ≤ 5)
    (report : String) :
    pollSteps ((List.replicate (k - 1) (retryBlock systemActivityId)).flatten ++
        [.query systemActivityId, .print report]) =
      (List.replicate k PollStep.query).intersperse (.wait 10) ∧
    queryCount ((List.replicate (k - 1) (retryBlock systemActivityId)).flatten ++
        [.query systemActivityId, .print report]) = k := by
  interval_cases k <;>
    simp [pollSteps, queryCount, retryBlock, MainEvent.toPollStep, List.replicate,
      List.intersperse]

/-- C6: in the polling loop of `main`, poll query `n+1` is issued if and only if
`n < 5` and each of queries `1..n` failed with an error containing
`Resource not found`; exactly one 10-second sleep separates consecutive queries
and none follows the last; no run makes more than 5 queries; and a failure
whose text does not contain `Resource not found` is the last query of the run. -/
theorem polling_loop_contract (svc : Services) (systemActivityId : String) :
    (∀ n, n < queryCount (pollAndReport svc systemActivityId) ↔
      n < 5 ∧ ∀ i, i < n → notFound (svc.QuerySystemActivity i systemActivityId) = true) ∧
    pollSteps (pollAndReport svc systemActivityId) =
      (List.replicate (queryCount (pollAndReport svc systemActivityId))
        PollStep.query).intersperse (.wait 10) ∧
    queryCount (pollAndReport svc systemActivityId) ≤ 5 ∧
    (∀ j e, j < queryCount (pollAndReport svc systemActivityId) →
      svc.QuerySystemActivity j systemActivityId = .error e →
      stringsContains e "Resource not found" = false →
      queryCount (pollAndReport svc systemActivityId) = j + 1) := by
  obtain ⟨k, hk1, hk5, hall, hcase⟩ := pollAndReport_shape svc systemActivityId
  have hlast : notFound (svc.QuerySystemActivity (k - 1) systemActivityId) = true → k = 5 := by
    intro h
    rcases hcase with ⟨r, hq, -⟩ | ⟨e, hq, hstop, -⟩
    · simp [notFound, hq] at h
    · rcases hstop with h5 | hc
      · exact h5
      · simp [notFound, hq, hc] at h
  have hshape : pollSteps (pollAndReport svc systemActivityId) =
        (List.replicate k PollStep.query).intersperse (.wait 10) ∧
      queryCount (pollAndReport svc systemActivityId) = k := by
    rcases hcase with ⟨r, -, htr⟩ | ⟨e, -, -, htr⟩ <;> rw [htr] <;>
      exact pollSteps_of_shape systemActivityId k hk1 hk5 _
  obtain ⟨hsteps, hcount⟩ := hshape
  rw [hcount]
  refine ⟨fun n => ⟨fun hn => ⟨by omega, fun i hi => hall i (by omega)⟩, ?_⟩, hsteps, hk5, ?_⟩
  · rintro ⟨hn5, hn⟩
    by_contra hlt
    have h5 := hlast (hn (k - 1) (by omega))
    omega
  · intro j e hj hq hc
    by_contra hne
    have h := hall j (by omega)
    simp [notFound, hq, hc] at h

/-- Witness of C6: the second query fails with `access denied`; it is the last
query of the run. -/
theorem polling_loop_contract_witness :
    queryCount (pollAndReport svcDeniedAtSecond "a1") = 1 + 1 :=
  (polling_loop_contract svcDeniedAtSecond "a1").2.2.2 1
    "graphql errors: [\x7baccess denied\x7d]" (by decide) rfl (by decide)

/-- C7: for every `k` with `1 ≤ k ≤ 5`, if poll queries `1..k-1` fail with a
`Resource not found` error and query `k` succeeds, the poller makes exactly `k`
queries and its last step prints the `Status` field decoded from query `k`,
whatever that string is. -/
theorem polling_success (svc : Services) (systemActivityId : String) (k : Nat)
    (r : SystemActivityResponse) (hk1 : 1 ≤ k) (hk5 : k ≤ 5)
    (hfail : ∀ i, i < k - 1 → notFound (svc.QuerySystemActivity i systemActivityId) = true)
    (hok : svc.QuerySystemActivity (k - 1) systemActivityId = .ok r) :
    pollAndReport svc systemActivityId =
        (List.replicate (k - 1) (retryBlock systemActivityId)).flatten ++
          [ .query systemActivityId
          , .print ("System Activity Status: " ++ r.Data.SystemActivity.Status ++ "\n") ] ∧
      queryCount (pollAndReport svc systemActivityId) = k := by
  obtain ⟨k1, h1, h5, hall, hcase⟩ := pollAndReport_shape svc systemActivityId
  have hkk : k1 = k := by
    rcases Nat.lt_trichotomy k1 k with hlt | heq | hgt
    · have h := hfail (k1 - 1) (by omega)
      rcases hcase with ⟨r1, hq, -⟩ | ⟨e, hq, hstop, -⟩
      · simp [notFound, hq] at h
      · rcases hstop with h5 | hc
        · omega
        · simp [notFound, hq, hc] at h
    · exact heq
    · have h := hall (k - 1) (by omega)
      simp [notFound, hok] at h
  subst hkk
  rcases hcase with ⟨r1, hq, htr⟩ | ⟨e, hq, -, -⟩
  · rw [hok] at hq
    cases hq
    exact ⟨htr, htr ▸ (pollSteps_of_shape systemActivityId k1 h1 h5 _).2⟩
  · rw [hok] at hq
    cases hq

/-- Witness of C7: the scenario of the third query succeeding, with status
`PENDING`. -/
theorem polling_success_witness :
    pollAndReport svcVisibleAtThird "a1" =
        (List.replicate (3 - 1) (retryBlock "a1")).flatten ++
          [ .query "a1"
          , .print ("System Activity Status: " ++
              (activityWithStatus "PENDING").Data.SystemActivity.Status ++ "\n") ] ∧
      queryCount (pollAndReport svcVisibleAtThird "a1") = 3 :=
  polling_success svcVisibleAtThird "a1" 3 (activityWithStatus "PENDING") (by decide)
    (by decide) (by decide) rfl

/-- The timeout report is none of the other messages of the polling part. -/
theorem timeout_message_ne (t : String) :
    "Failed to query system activity after retries.\n" ≠
        "Resource not found, retrying in " ++ toString (10 : Nat) ++ " seconds...\n" ∧
      "Failed to query system activity after retries.\n" ≠
        "System Activity Status: " ++ t ++ "\n" ∧
      "Failed to query system activity after retries.\n" ≠
        "Error querying system activity: " ++ t ++ "\n" := by
  refine ⟨?_, ?_, ?_⟩ <;> intro h <;> have h1 := congrArg String.data h <;>
    simp [String.data_append] at h1

/-- C8 as stated fails: when all five poll queries fail with a
`Resource not found` error, the run does not print
`Failed to query system activity after retries.`; it ends with the report of the
query error. -/
theorem poll_exhaustion_counterexample :
    (∀ i, i < 5 → notFound (svcNeverVisible.QuerySystemActivity i "a1") = true) ∧
      MainEvent.print "Failed to query system activity after retries.\n" ∉
        pollAndReport svcNeverVisible "a1" ∧
      (pollAndReport svcNeverVisible "a1").getLast? =
        some (.print ("Error querying system activity: " ++
          "graphql errors: [\x7bResource not found\x7d]" ++ "\n")) := by
  decide

/-- C8, amended: when all five poll queries fail with a `Resource not found`
error, the poller makes exactly 5 queries with 4 sleeps and ends with the failure
report `Error querying system activity:` of the fifth error; and no run of the
polling part, whatever the query outcomes, prints
`Failed to query system activity after retries.`. -/
theorem poll_exhaustion_reports_last_error (svc : Services) (systemActivityId : String)
    (e : GoError)
    (hfail : ∀ i, i < 5 → notFound (svc.QuerySystemActivity i systemActivityId) = true)
    (hlast : svc.QuerySystemActivity 4 systemActivityId = .error e) :
    pollAndReport svc systemActivityId =
        (List.replicate 4 (retryBlock systemActivityId)).flatten ++
          [ .query systemActivityId
          , .print ("Error querying system activity: " ++ e ++ "\n") ] ∧
      queryCount (pollAndReport svc systemActivityId) = 5 ∧
      ∀ (svc1 : Services) (id1 : String),
        MainEvent.print "Failed to query system activity after retries.\n" ∉
          pollAndReport svc1 id1 := by
  refine ⟨?_, ?_, ?_⟩
  · obtain ⟨k, h1, h5, hall, hcase⟩ := pollAndReport_shape svc systemActivityId
    have hk : k = 5 := by
      have h := hfail (k - 1) (by omega)
      rcases hcase with ⟨r1, hq, -⟩ | ⟨e1, hq, hstop, -⟩
      · simp [notFound, hq] at h
      · rcases hstop with h5 | hc
        · exact h5
        · simp [notFound, hq, hc] at h
    subst hk
    rcases hcase with ⟨r1, hq, -⟩ | ⟨e1, hq, -, htr⟩
    · rw [hlast] at hq
      cases hq
    · rw [hlast] at hq
      cases hq
      exact htr
  · obtain ⟨k, h1, h5, hall, hcase⟩ := pollAndReport_shape svc systemActivityId
    have hk : k = 5 := by
      have h := hfail (k - 1) (by omega)
      rcases hcase with ⟨r1, hq, -⟩ | ⟨e1, hq, hstop, -⟩
      · simp [notFound, hq] at h
      · rcases hstop with h5 | hc
        · exact h5
        · simp [notFound, hq, hc] at h
    subst hk
    rcases hcase with ⟨r, -, htr⟩ | ⟨e, -, -, htr⟩ <;> rw [htr] <;>
      exact (pollSteps_of_shape systemActivityId 5 h1 h5 _).2
  · intro svc1 id1
    obtain ⟨k, h1, h5, -, hcase⟩ := pollAndReport_shape svc1 id1
    rcases hcase with ⟨r, -, htr⟩ | ⟨e1, -, -, htr⟩
    · rw [htr]
      simp [retryBlock, (timeout_message_ne r.Data.SystemActivity.Status).1,
        (timeout_message_ne r.Data.SystemActivity.Status).2.1]
    · rw [htr]
      simp [retryBlock, (timeout_message_ne e1).1, (timeout_message_ne e1).2.2]

/-- Witness of C8, amended: the activity never becomes visible. -/
theorem poll_exhaustion_reports_last_error_witness :
    pollAndReport svcNeverVisible "a1" =
        (List.replicate 4 (retryBlock "a1")).flatten ++
          [ .query "a1"
          , .print ("Error querying system activity: " ++
              "graphql errors: [\x7bResource not found\x7d]" ++ "\n") ] ∧
      queryCount (pollAndReport svcNeverVisible "a1") = 5 ∧
      ∀ (svc1 : Services) (id1 : String),
        MainEvent.print "Failed to query system activity after retries.\n" ∉
          pollAndReport svc1 id1 :=
  poll_exhaustion_reports_last_error svcNeverVisible "a1"
    "graphql errors: [\x7bResource not found\x7d]" (by decide) rfl

/-! ## The workflow of `main` -/

/-- In a list split in two ways, an element of the first part `p` lies before
any occurrence of an element that `p` does not contain. -/
theorem mem_prefix_of_split {α : Type} (p q pre post : List α) (x a : α)
    (h : p ++ q = pre ++ x :: post) (hx : x ∉ p) (ha : a ∈ p) : a ∈ pre := by
  rcases List.append_eq_append_iff.1 h with ⟨m, hpre, -⟩ | ⟨m, hp, hm⟩
  · rw [hpre]
    exact List.mem_append_left _ ha
  · cases m with
    | nil => simpa [hp] using ha
    | cons y m1 =>
      simp only [List.cons_append, List.cons.injEq] at hm
      refine absurd ?_ hx
      rw [hp, hm.1]
      simp

/-- The events of the polling part: queries with the given identifier, sleeps
and prints. -/
theorem pollAndReport_events (svc : Services) (systemActivityId : String) (ev : MainEvent)
    (h : ev ∈ pollAndReport svc systemActivityId) :
    ev = .query systemActivityId ∨ ev = .sleep 10 ∨ ∃ t, ev = .print t := by
  obtain ⟨k, -, -, -, hcase⟩ := pollAndReport_shape svc systemActivityId
  rcases hcase with ⟨r, -, htr⟩ | ⟨e, -, -, htr⟩ <;>
  · rw [htr] at h
    simp only [List.mem_append, List.mem_flatten, List.mem_replicate, List.mem_cons,
      List.mem_singleton, List.not_mem_nil, or_false] at h
    rcases h with ⟨l, ⟨-, rfl⟩, hl⟩ | rfl | rfl
    · simp only [retryBlock, List.mem_cons, List.mem_singleton, List.not_mem_nil,
        or_false] at hl
      rcases hl with rfl | rfl | rfl
      · exact Or.inl rfl
      · exact Or.inr (Or.inr ⟨_, rfl⟩)
      · exact Or.inr (Or.inl rfl)
    · exact Or.inl rfl
    · exact Or.inr (Or.inr ⟨_, rfl⟩)

/-- The trace of `main` when authentication, the slot request and the upload
succeed. -/
theorem main_of_success (svc : Services) (r : RequestSecurityScanUploadResponse)
    (ha : svc.Authenticate = none)
    (hr : svc.RequestSecurityScanUpload "state-current.json" = .ok r)
    (hu : svc.StateUpload r.Data.RequestSecurityScanUpload.Upload.URL "state-current.json" =
      none) :
    main svc = stepsBeforeUpload r.Data.RequestSecurityScanUpload.Upload ++
      (.stateUpload r.Data.RequestSecurityScanUpload.Upload.URL "state-current.json" ::
        pollAndReport svc r.Data.RequestSecurityScanUpload.Upload.SystemActivityId) := by
  simp [main, ha, hr, hu, stepsBeforeUpload]

/-- The trace of `main` when authentication and the slot request succeed and the
upload fails. -/
theorem main_of_upload_failure (svc : Services) (r : RequestSecurityScanUploadResponse)
    (e : GoError) (ha : svc.Authenticate = none)
    (hr : svc.RequestSecurityScanUpload "state-current.json" = .ok r)
    (hu : svc.StateUpload r.Data.RequestSecurityScanUpload.Upload.URL "state-current.json" =
      some e) :
    main svc = stepsBeforeUpload r.Data.RequestSecurityScanUpload.Upload ++
      [ .stateUpload r.Data.RequestSecurityScanUpload.Upload.URL "state-current.json"
      , .print ("Error uploading state file: " ++ e ++ "\n") ] := by
  simp [main, ha, hr, hu, stepsBeforeUpload]

/-- C9: in `main`, every invocation of the storage upload comes after a
successful `RequestSecurityScanUpload` and carries the url of the returned slot;
every poll query comes after a successful storage upload and carries the
`systemActivityId` of that same slot; and when authentication, the slot request
or the upload fails, no poll query is made. -/
theorem main_wiring (svc : Services) :
    (∀ pre url f post, main svc = pre ++ .stateUpload url f :: post →
      ∃ r, svc.Authenticate = none ∧
        svc.RequestSecurityScanUpload "state-current.json" = .ok r ∧
        url = r.Data.RequestSecurityScanUpload.Upload.URL ∧ f = "state-current.json" ∧
        .requestUpload "state-current.json" ∈ pre) ∧
    (∀ pre id post, main svc = pre ++ .query id :: post →
      ∃ r, svc.Authenticate = none ∧
        svc.RequestSecurityScanUpload "state-current.json" = .ok r ∧
        svc.StateUpload r.Data.RequestSecurityScanUpload.Upload.URL "state-current.json" =
          none ∧
        id = r.Data.RequestSecurityScanUpload.Upload.SystemActivityId ∧
        .stateUpload r.Data.RequestSecurityScanUpload.Upload.URL "state-current.json" ∈ pre) ∧
    ((svc.Authenticate ≠ none ∨
        (∃ e, svc.RequestSecurityScanUpload "state-current.json" = .error e) ∨
        (∃ r e, svc.RequestSecurityScanUpload "state-current.json" = .ok r ∧
          svc.StateUpload r.Data.RequestSecurityScanUpload.Upload.URL "state-current.json" =
            some e)) →
      ∀ id, MainEvent.query id ∉ main svc) := by
  have hquery : ∀ pre id post, main svc = pre ++ .query id :: post →
      ∃ r, svc.Authenticate = none ∧
        svc.RequestSecurityScanUpload "state-current.json" = .ok r ∧
        svc.StateUpload r.Data.RequestSecurityScanUpload.Upload.URL "state-current.json" =
          none ∧
        id = r.Data.RequestSecurityScanUpload.Upload.SystemActivityId ∧
        .stateUpload r.Data.RequestSecurityScanUpload.Upload.URL "state-current.json" ∈
          pre := by
    intro pre id post h
    have hmem : MainEvent.query id ∈ main svc := by rw [h]; simp
    cases ha : svc.Authenticate with
    | some e => simp [main, ha] at hmem
    | none =>
      cases hr : svc.RequestSecurityScanUpload "state-current.json" with
      | error e => simp [main, ha, hr] at hmem
      | ok r =>
        cases hu : svc.StateUpload r.Data.RequestSecurityScanUpload.Upload.URL
            "state-current.json" with
        | some e =>
          rw [main_of_upload_failure svc r e ha hr hu] at hmem
          simp [stepsBeforeUpload] at hmem
        | none =>
          have hm := main_of_success svc r ha hr hu
          rw [hm] at hmem
          have hid : id = r.Data.RequestSecurityScanUpload.Upload.SystemActivityId := by
            simp only [stepsBeforeUpload, List.mem_append, List.mem_cons, List.mem_singleton,
              List.not_mem_nil, or_false, reduceCtorEq, false_or] at hmem
            rcases pollAndReport_events svc _ _ hmem with h1 | h1 | ⟨t, h1⟩
            · exact MainEvent.query.inj h1
            · cases h1
            · cases h1
          refine ⟨r, rfl, rfl, hu, hid, ?_⟩
          have h2 : (stepsBeforeUpload r.Data.RequestSecurityScanUpload.Upload ++
              [.stateUpload r.Data.RequestSecurityScanUpload.Upload.URL
                "state-current.json"]) ++
              pollAndReport svc r.Data.RequestSecurityScanUpload.Upload.SystemActivityId =
              pre ++ .query id :: post := by
            rw [← h, hm]
            simp
          refine mem_prefix_of_split _ _ pre post (.query id) _ h2 ?_ ?_
          · simp [stepsBeforeUpload]
          · simp
  refine ⟨?_, hquery, ?_⟩
  · intro pre url f post h
    have hmem : MainEvent.stateUpload url f ∈ main svc := by rw [h]; simp
    cases ha : svc.Authenticate with
    | some e => simp [main, ha] at hmem
    | none =>
      cases hr : svc.RequestSecurityScanUpload "state-current.json" with
      | error e => simp [main, ha, hr] at hmem
      | ok r =>
        have hsplit : ∃ q, main svc =
            stepsBeforeUpload r.Data.RequestSecurityScanUpload.Upload ++ q ∧
            ∀ ev ∈ q, (∃ u g, ev = MainEvent.stateUpload u g) →
              ev = .stateUpload r.Data.RequestSecurityScanUpload.Upload.URL
                "state-current.json" := by
          cases hu : svc.StateUpload r.Data.RequestSecurityScanUpload.Upload.URL
              "state-current.json" with
          | some e =>
            refine ⟨_, main_of_upload_failure svc r e ha hr hu, ?_⟩
            intro ev hev hup
            simp only [List.mem_cons, List.mem_singleton, List.not_mem_nil, or_false] at hev
            rcases hev with rfl | rfl
            · rfl
            · obtain ⟨u, g, hug⟩ := hup
              cases hug
          | none =>
            refine ⟨_, main_of_success svc r ha hr hu, ?_⟩
            intro ev hev hup
            rcases List.mem_cons.1 hev with rfl | hev1
            · rfl
            · obtain ⟨u, g, hug⟩ := hup
              subst hug
              rcases pollAndReport_events svc _ _ hev1 with h1 | h1 | ⟨t, h1⟩ <;> cases h1
        obtain ⟨q, hq, hqev⟩ := hsplit
        have hnot : MainEvent.stateUpload url f ∉
            stepsBeforeUpload r.Data.RequestSecurityScanUpload.Upload := by
          simp [stepsBeforeUpload]
        have hinq : MainEvent.stateUpload url f ∈ q := by
          rw [hq] at hmem
          rcases List.mem_append.1 hmem with h1 | h1
          · exact absurd h1 hnot
          · exact h1
        have heq := hqev _ hinq ⟨url, f, rfl⟩
        cases heq
        refine ⟨r, rfl, rfl, rfl, rfl, ?_⟩
        rw [hq] at h
        exact mem_prefix_of_split _ _ pre post _ _ h hnot (by simp [stepsBeforeUpload])
  · intro hfail id hmem
    obtain ⟨pre, post, hsplit⟩ := List.append_of_mem hmem
    obtain ⟨r, ha, hr, hu, -, -⟩ := hquery pre id post hsplit
    rcases hfail with h1 | ⟨e, h1⟩ | ⟨r1, e, h1, h2⟩
    · exact h1 ha
    · rw [hr] at h1
      cases h1
    · rw [hr] at h1
      cases h1
      rw [hu] at h2
      cases h2

/-- Witness of C9: the slot of the scenario, with url `https://x/put` and
activity `a1`; the upload is invoked with that url after the slot request, and
the poll query carries `a1`. -/
theorem main_wiring_witness :
    (∃ r, svcVisibleAtThird.Authenticate = none ∧
        svcVisibleAtThird.RequestSecurityScanUpload "state-current.json" = .ok r ∧
        "https://x/put" = r.Data.RequestSecurityScanUpload.Upload.URL ∧
        "state-current.json" = "state-current.json" ∧
        MainEvent.requestUpload "state-current.json" ∈
          stepsBeforeUpload
            { ID := "u1", URL := "https://x/put", SystemActivityId := "a1" }) ∧
      ∀ id, MainEvent.query id ∉ main svcAuthFails :=
  ⟨(main_wiring svcVisibleAtThird).1
      (stepsBeforeUpload { ID := "u1", URL := "https://x/put", SystemActivityId := "a1" })
      "https://x/put" "state-current.json" (pollAndReport svcVisibleAtThird "a1") (by decide),
    (main_wiring svcAuthFails).2.2 (Or.inl (by decide))⟩

/-! ## The shape of every run of `QueryWithRetry` -/

/-- Shape of every run of `QueryWithRetry` whose request was built: for some
`k` between 1 and 3, attempts `1..k-1` failed (transport error or retryable
status), and either attempt `k` yields a non-retryable response, which is
returned after `k` attempts separated by 2-second waits, or `k = 3`, the third
attempt failed too, an error is returned and one more wait follows the third
attempt. -/
theorem QueryWithRetry_shape (w : WizAPI) (env : HTTPEnv) (query : String)
    (queryVariables : GoMap JSONValue) (jsonData : String)
    (hm : env.jsonMarshal (queryData query queryVariables) = .ok jsonData)
    (hu : env.urlParseError w.ClientQueryURL = none) :
    ∃ k, 1 ≤ k ∧ k ≤ 3 ∧ (∀ i, i < k - 1 → attemptFailed w env i = true) ∧
      ((∃ r, env.Do (k - 1) = .resp r ∧ w.RetryableResponseStatusCode r.StatusCode = false ∧
          (w.QueryWithRetry env query queryVariables).1 = .ok r ∧
          steps (w.QueryWithRetry env query queryVariables).2 =
            ((List.range k).map Step.attempt).intersperse (.wait 2)) ∨
        (k = 3 ∧ attemptFailed w env 2 = true ∧
          (∃ e, (w.QueryWithRetry env query queryVariables).1 = .error e) ∧
          steps (w.QueryWithRetry env query queryVariables).2 =
            ((List.range 3).map Step.attempt).intersperse (.wait 2) ++ [.wait 2])) := by
  simp only [queryData] at hm
  rcases h0 : env.Do 0 with e0 | r0
  · rcases h1 : env.Do 1 with e1 | r1
    · rcases h2 : env.Do 2 with e2 | r2
      · refine ⟨3, by omega, by omega, ?_, Or.inr ⟨rfl, ?_, ⟨e2, ?_⟩, ?_⟩⟩
        · intro i hi
          interval_cases i <;> simp [attemptFailed, h0, h1]
        · simp [attemptFailed, h0, h1, h2]
        · simp [WizAPI.QueryWithRetry, retryLoop, httpNewRequest, hm, hu, h0, h1, h2]
        · simp [WizAPI.QueryWithRetry, retryLoop, httpNewRequest, hm, hu, h0, h1, h2, steps, Event.toStep, List.range_succ]
      · by_cases c2 : w.RetryableResponseStatusCode r2.StatusCode = true
        · refine ⟨3, by omega, by omega, ?_, Or.inr ⟨rfl, ?_, ⟨("max retries reached with status code: " ++ toString r2.StatusCode), ?_⟩, ?_⟩⟩
          · intro i hi
            interval_cases i <;> simp [attemptFailed, h0, h1]
          · simp [attemptFailed, h0, h1, h2, c2]
          · simp [WizAPI.QueryWithRetry, retryLoop, httpNewRequest, hm, hu, h0, h1, h2, c2]
          · simp [WizAPI.QueryWithRetry, retryLoop, httpNewRequest, hm, hu, h0, h1, h2, c2, steps, Event.toStep, List.range_succ]
        · have d2 : w.RetryableResponseStatusCode r2.StatusCode = false := by simpa using c2
          refine ⟨3, by omega, by omega, ?_, Or.inl ⟨r2, h2, d2, ?_, ?_⟩⟩
          · intro i hi
            interval_cases i <;> simp [attemptFailed, h0, h1]
          · simp [WizAPI.QueryWithRetry, retryLoop, httpNewRequest, hm, hu, h0, h1, h2, d2]
          · simp [WizAPI.QueryWithRetry, retryLoop, httpNewRequest, hm, hu, h0, h1, h2, d2, steps, Event.toStep, List.range_succ]
    · by_cases c1 : w.RetryableResponseStatusCode r1.StatusCode = true
      · rcases h2 : env.Do 2 with e2 | r2
        · refine ⟨3, by omega, by omega, ?_, Or.inr ⟨rfl, ?_, ⟨e2, ?_⟩, ?_⟩⟩
          · intro i hi
            interval_cases i <;> simp [attemptFailed, h0, h1, c1]
          · simp [attemptFailed, h0, h1, c1, h2]
          · simp [WizAPI.QueryWithRetry, retryLoop, httpNewRequest, hm, hu, h0, h1, c1, h2]
          · simp [WizAPI.QueryWithRetry, retryLoop, httpNewRequest, hm, hu, h0, h1, c1, h2, steps, Event.toStep, List.range_succ]
        · by_cases c2 : w.RetryableResponseStatusCode r2.StatusCode = true
          · refine ⟨3, by omega, by omega, ?_, Or.inr ⟨rfl, ?_, ⟨("max retries reached with status code: " ++ toString r2.StatusCode), ?_⟩, ?_⟩⟩
            · intro i hi
              interval_cases i <;> simp [attemptFailed, h0, h1, c1]
            · simp [attemptFailed, h0, h1, c1, h2, c2]
            · simp [WizAPI.QueryWithRetry, retryLoop, httpNewRequest, hm, hu, h0, h1, c1, h2, c2]
            · simp [WizAPI.QueryWithRetry, retryLoop, httpNewRequest, hm, hu, h0, h1, c1, h2, c2, steps, Event.toStep, List.range_succ]
          · have d2 : w.RetryableResponseStatusCode r2.StatusCode = false := by simpa using c2
            refine ⟨3, by omega, by omega, ?_, Or.inl ⟨r2, h2, d2, ?_, ?_⟩⟩
            · intro i hi
              interval_cases i <;> simp [attemptFailed, h0, h1, c1]
            · simp [WizAPI.QueryWithRetry, retryLoop, httpNewRequest, hm, hu, h0, h1, c1, h2, d2]
            · simp [WizAPI.QueryWithRetry, retryLoop, httpNewRequest, hm, hu, h0, h1, c1, h2, d2, steps, Event.toStep, List.range_succ]
      · have d1 : w.RetryableResponseStatusCode r1.StatusCode = false := by simpa using c1
        refine ⟨2, by omega, by omega, ?_, Or.inl ⟨r1, h1, d1, ?_, ?_⟩⟩
        · intro i hi
          obtain rfl : i = 0 := by omega
          simp [attemptFailed, h0]
        · simp [WizAPI.QueryWithRetry, retryLoop, httpNewRequest, hm, hu, h0, h1, d1]
        · simp [WizAPI.QueryWithRetry, retryLoop, httpNewRequest, hm, hu, h0, h1, d1, steps, Event.toStep, List.range_succ]
  · by_cases c0 : w.RetryableResponseStatusCode r0.StatusCode = true
    · rcases h1 : env.Do 1 with e1 | r1
      · rcases h2 : env.Do 2 with e2 | r2
        · refine ⟨3, by omega, by omega, ?_, Or.inr ⟨rfl, ?_, ⟨e2, ?_⟩, ?_⟩⟩
          · intro i hi
            interval_cases i <;> simp [attemptFailed, h0, c0, h1]
          · simp [attemptFailed, h0, c0, h1, h2]
          · simp [WizAPI.QueryWithRetry, retryLoop, httpNewRequest, hm, hu, h0, c0, h1, h2]
          · simp [WizAPI.QueryWithRetry, retryLoop, httpNewRequest, hm, hu, h0, c0, h1, h2, steps, Event.toStep, List.range_succ]
        · by_cases c2 : w.RetryableResponseStatusCode r2.StatusCode = true
          · refine ⟨3, by omega, by omega, ?_, Or.inr ⟨rfl, ?_, ⟨("max retries reached with status code: " ++ toString r2.StatusCode), ?_⟩, ?_⟩⟩
            · intro i hi
              interval_cases i <;> simp [attemptFailed, h0, c0, h1]
            · simp [attemptFailed, h0, c0, h1, h2, c2]
            · simp [WizAPI.QueryWithRetry, retryLoop, httpNewRequest, hm, hu, h0, c0, h1, h2, c2]
            · simp [WizAPI.QueryWithRetry, retryLoop, httpNewRequest, hm, hu, h0, c0, h1, h2, c2, steps, Event.toStep, List.range_succ]
          · have d2 : w.RetryableResponseStatusCode r2.StatusCode = false := by simpa using c2
            refine ⟨3, by omega, by omega, ?_, Or.inl ⟨r2, h2, d2, ?_, ?_⟩⟩
            · intro i hi
              interval_cases i <;> simp [attemptFailed, h0, c0, h1]
            · simp [WizAPI.QueryWithRetry, retryLoop, httpNewRequest, hm, hu, h0, c0, h1, h2, d2]
            · simp [WizAPI.QueryWithRetry, retryLoop, httpNewRequest, hm, hu, h0, c0, h1, h2, d2, steps, Event.toStep, List.range_succ]
      · by_cases c1 : w.RetryableResponseStatusCode r1.StatusCode = true
        · rcases h2 : env.Do 2 with e2 | r2
          · refine ⟨3, by omega, by omega, ?_, Or.inr ⟨rfl, ?_, ⟨e2, ?_⟩, ?_⟩⟩
            · intro i hi
              interval_cases i <;> simp [attemptFailed, h0, c0, h1, c1]
            · simp [attemptFailed, h0, c0, h1, c1, h2]
            · simp [WizAPI.QueryWithRetry, retryLoop, httpNewRequest, hm, hu, h0, c0, h1, c1, h2]
            · simp [WizAPI.QueryWithRetry, retryLoop, httpNewRequest, hm, hu, h0, c0, h1, c1, h2, steps, Event.toStep, List.range_succ]
          · by_cases c2 : w.RetryableResponseStatusCode r2.StatusCode = true
            · refine ⟨3, by omega, by omega, ?_, Or.inr ⟨rfl, ?_, ⟨("max retries reached with status code: " ++ toString r2.StatusCode), ?_⟩, ?_⟩⟩
              · intro i hi
                interval_cases i <;> simp [attemptFailed, h0, c0, h1, c1]
              · simp [attemptFailed, h0, c0, h1, c1, h2, c2]
              · simp [WizAPI.QueryWithRetry, retryLoop, httpNewRequest, hm, hu, h0, c0, h1, c1, h2, c2]
              · simp [WizAPI.QueryWithRetry, retryLoop, httpNewRequest, hm, hu, h0, c0, h1, c1, h2, c2, steps, Event.toStep, List.range_succ]
            · have d2 : w.RetryableResponseStatusCode r2.StatusCode = false := by simpa using c2
              refine ⟨3, by omega, by omega, ?_, Or.inl ⟨r2, h2, d2, ?_, ?_⟩⟩
              · intro i hi
                interval_cases i <;> simp [attemptFailed, h0, c0, h1, c1]
              · simp [WizAPI.QueryWithRetry, retryLoop, httpNewRequest, hm, hu, h0, c0, h1, c1, h2, d2]
              · simp [WizAPI.QueryWithRetry, retryLoop, httpNewRequest, hm, hu, h0, c0, h1, c1, h2, d2, steps, Event.toStep, List.range_succ]
        · have d1 : w.RetryableResponseStatusCode r1.StatusCode = false := by simpa using c1
          refine ⟨2, by omega, by omega, ?_, Or.inl ⟨r1, h1, d1, ?_, ?_⟩⟩
          · intro i hi
            obtain rfl : i = 0 := by omega
            simp [attemptFailed, h0, c0]
          · simp [WizAPI.QueryWithRetry, retryLoop, httpNewRequest, hm, hu, h0, c0, h1, d1]
          · simp [WizAPI.QueryWithRetry, retryLoop, httpNewRequest, hm, hu, h0, c0, h1, d1, steps, Event.toStep, List.range_succ]
    · have d0 : w.RetryableResponseStatusCode r0.StatusCode = false := by simpa using c0
      refine ⟨1, by omega, by omega, ?_, Or.inl ⟨r0, h0, d0, ?_, ?_⟩⟩
      · intro i hi
        omega
      · simp [WizAPI.QueryWithRetry, retryLoop, httpNewRequest, hm, hu, h0, d0]
      · simp [WizAPI.QueryWithRetry, retryLoop, httpNewRequest, hm, hu, h0, d0, steps, Event.toStep, List.range_succ]

/-- The counts of the steps of a run of `k` attempts separated by 2-second
waits. -/
theorem counts_of_attempts (k : Nat) (hk1 : 1 ≤ k) (hk3 : k ≤ 3) :
    sleepCount (((List.range k).map Step.attempt).intersperse (.wait 2)) = k - 1 ∧
    attemptCount (((List.range k).map Step.attempt).intersperse (.wait 2)) = k ∧
    (∀ n, Step.attempt n ∈ ((List.range k).map Step.attempt).intersperse (.wait 2) ↔ n < k) ∧
    (∀ s ∈ ((List.range k).map Step.attempt).intersperse (.wait 2),
      s = .wait 2 ∨ ∃ n, s = .attempt n) := by
  interval_cases k
  · refine ⟨by decide, by decide, fun n => ?_, by simp [List.range_succ]⟩
    simp [List.range_succ]
  · refine ⟨by decide, by decide, fun n => ?_, by simp [List.range_succ]⟩
    simp [List.range_succ]
    omega
  · refine ⟨by decide, by decide, fun n => ?_, by simp [List.range_succ]⟩
    simp [List.range_succ]
    omega

/-- A non-retryable response is not a failed attempt. -/
theorem attemptFailed_of_resp (w : WizAPI) (env : HTTPEnv) (i : Nat) (r : Response)
    (h : env.Do i = .resp r) :
    attemptFailed w env i = w.RetryableResponseStatusCode r.StatusCode := by
  simp [attemptFailed, h]

/-- C15: in `QueryWithRetry` every sleep lasts 2 seconds and the number of sleeps
equals the number of attempts made that ended in a transport error or a retryable
status, the third attempt included. A call whose three attempts all fail sleeps
exactly 3 times, 6 seconds in total, the last sleep coming after the third
attempt and before the error is returned; a call whose `k`-th attempt yields a
non-retryable response sleeps exactly `k-1` times. -/
theorem QueryWithRetry_sleep_count (w : WizAPI) (env : HTTPEnv) (query : String)
    (queryVariables : GoMap JSONValue) (jsonData : String)
    (hm : env.jsonMarshal (queryData query queryVariables) = .ok jsonData)
    (hu : env.urlParseError w.ClientQueryURL = none) :
    (∀ s ∈ steps (w.QueryWithRetry env query queryVariables).2,
      s = .wait 2 ∨ ∃ n, s = .attempt n) ∧
    (∀ n, Step.attempt n ∈ steps (w.QueryWithRetry env query queryVariables).2 ↔
      n < attemptCount (steps (w.QueryWithRetry env query queryVariables).2)) ∧
    sleepCount (steps (w.QueryWithRetry env query queryVariables).2) =
      ((List.range (attemptCount (steps (w.QueryWithRetry env query queryVariables).2))).filter
        (attemptFailed w env)).length ∧
    ((∀ i, i < 3 → attemptFailed w env i = true) →
      attemptCount (steps (w.QueryWithRetry env query queryVariables).2) = 3 ∧
      sleepCount (steps (w.QueryWithRetry env query queryVariables).2) = 3 ∧
      sleepSeconds (steps (w.QueryWithRetry env query queryVariables).2) = 6 ∧
      (steps (w.QueryWithRetry env query queryVariables).2).getLast? = some (.wait 2) ∧
      ∃ e, (w.QueryWithRetry env query queryVariables).1 = .error e) ∧
    (∀ k r, 1 ≤ k → k ≤ 3 → (∀ i, i < k - 1 → attemptFailed w env i = true) →
      env.Do (k - 1) = .resp r → w.RetryableResponseStatusCode r.StatusCode = false →
      sleepCount (steps (w.QueryWithRetry env query queryVariables).2) = k - 1) := by
  obtain ⟨k, hk1, hk3, hall, hcase⟩ := QueryWithRetry_shape w env query queryVariables jsonData hm hu
  rcases hcase with ⟨r, hr, hnon, hres, hsteps⟩ | ⟨rfl, hf2, ⟨e, hres⟩, hsteps⟩
  · obtain ⟨hsc, hac, hmem, hall2⟩ := counts_of_attempts k hk1 hk3
    have hlast : attemptFailed w env (k - 1) = false := by
      rw [attemptFailed_of_resp w env _ r hr, hnon]
    rw [hsteps, hsc, hac]
    refine ⟨hall2, hmem, ?_, ?_, ?_⟩
    · obtain rfl | rfl | rfl : k = 1 ∨ k = 2 ∨ k = 3 := by omega
      · have h0 : attemptFailed w env 0 = false := hlast
        simp [List.range_succ, List.filter, h0]
      · have h0 := hall 0 (by omega)
        have h1 : attemptFailed w env 1 = false := hlast
        simp [List.range_succ, List.filter, h0, h1]
      · have h0 := hall 0 (by omega)
        have h1 := hall 1 (by omega)
        have h2 : attemptFailed w env 2 = false := hlast
        simp [List.range_succ, List.filter, h0, h1, h2]
    · intro hfail
      have h := hfail (k - 1) (by omega)
      rw [hlast] at h
      cases h
    · intro k1 r1 h1 h3 hfail hr1 hnon1
      have hk : k1 = k := by
        rcases Nat.lt_trichotomy k1 k with hlt | heq | hgt
        · have h := hall (k1 - 1) (by omega)
          rw [attemptFailed_of_resp w env _ r1 hr1, hnon1] at h
          cases h
        · exact heq
        · have h := hfail (k - 1) (by omega)
          rw [hlast] at h
          cases h
      rw [hk]
  · have h0 := hall 0 (by omega)
    have h1 := hall 1 (by omega)
    rw [hsteps]
    refine ⟨by simp [List.range_succ], fun n => ?_, ?_,
      fun _ => ⟨by decide, by decide, by decide, by decide, e, hres⟩, ?_⟩
    · have hac : attemptCount (((List.range 3).map Step.attempt).intersperse (.wait 2) ++
          [.wait 2]) = 3 := by decide
      rw [hac]
      simp [List.range_succ]
      omega
    · have hac : attemptCount (((List.range 3).map Step.attempt).intersperse (.wait 2) ++
          [.wait 2]) = 3 := by decide
      have hsc : sleepCount (((List.range 3).map Step.attempt).intersperse (.wait 2) ++
          [.wait 2]) = 3 := by decide
      rw [hac, hsc]
      simp [List.range_succ, List.filter, h0, h1, hf2]
    · intro k1 r1 hk1 hk3 hfail hr1 hnon1
      exfalso
      obtain rfl | rfl | rfl : k1 = 1 ∨ k1 = 2 ∨ k1 = 3 := by omega
      · rw [attemptFailed_of_resp w env _ r1 hr1, hnon1] at h0
        cases h0
      · rw [attemptFailed_of_resp w env _ r1 hr1, hnon1] at h1
        cases h1
      · rw [attemptFailed_of_resp w env _ r1 hr1, hnon1] at hf2
        cases hf2

/-- Witness of C15: three answers with status 503 give three sleeps, 6 seconds
in total, the last one after the third attempt. -/
theorem QueryWithRetry_sleep_count_witness :
    attemptCount (steps ((NewWizAPI "id" "secret" "https://auth" "https://api").QueryWithRetry
        (envAlways 503) "q" []).2) = 3 ∧
      sleepCount (steps ((NewWizAPI "id" "secret" "https://auth" "https://api").QueryWithRetry
        (envAlways 503) "q" []).2) = 3 ∧
      sleepSeconds (steps ((NewWizAPI "id" "secret" "https://auth" "https://api").QueryWithRetry
        (envAlways 503) "q" []).2) = 6 ∧
      (steps ((NewWizAPI "id" "secret" "https://auth" "https://api").QueryWithRetry
        (envAlways 503) "q" []).2).getLast? = some (.wait 2) ∧
      ∃ e, ((NewWizAPI "id" "secret" "https://auth" "https://api").QueryWithRetry
        (envAlways 503) "q" []).1 = .error e :=
  (QueryWithRetry_sleep_count (NewWizAPI "id" "secret" "https://auth" "https://api")
    (envAlways 503) "q" [] "body" rfl rfl).2.2.2.1 (by decide)

/-! ## The query operations and the HTTP status -/

/-- A non-retryable response to the first attempt is what `QueryWithRetry`
returns. -/
theorem QueryWithRetry_first_response (w : WizAPI) (env : HTTPEnv) (query : String)
    (queryVariables : GoMap JSONValue) (jsonData : String) (r : Response)
    (hm : env.jsonMarshal (queryData query queryVariables) = .ok jsonData)
    (hu : env.urlParseError w.ClientQueryURL = none)
    (h0 : env.Do 0 = .resp r) (hnon : w.RetryableResponseStatusCode r.StatusCode = false) :
    (w.QueryWithRetry env query queryVariables).1 = .ok r := by
  simp only [queryData] at hm
  simp [WizAPI.QueryWithRetry, retryLoop, httpNewRequest, hm, hu, h0, hnon]

/-- The result of `RequestSecurityScanUpload` in terms of the transport result. -/
theorem RequestSecurityScanUpload_of_response (w : WizAPI) (env : HTTPEnv) (filename : String)
    (response : Response)
    (h : (w.QueryWithRetry env graphFileUploadRequest
      [("filename", .string filename)]).1 = .ok response) :
    (w.RequestSecurityScanUpload env filename).1 =
      decodeOutcome env.decodeUpload (fun v => v.Errors) response.Body := by
  unfold WizAPI.RequestSecurityScanUpload decodeOutcome
  dsimp only
  generalize w.QueryWithRetry env graphFileUploadRequest
    [("filename", .string filename)] = qr at h ⊢
  rcases qr with ⟨res, tr⟩
  simp only at h
  subst h
  dsimp only
  cases env.decodeUpload response.Body with
  | error err => rfl
  | ok u => dsimp only; split <;> rfl

/-- The result of `QuerySystemActivity` in terms of the transport result. -/
theorem QuerySystemActivity_of_response (w : WizAPI) (env : HTTPEnv)
    (systemActivityID : String) (response : Response)
    (h : (w.QueryWithRetry env graphSystemActivityQuery
      [("id", .string systemActivityID)]).1 = .ok response) :
    (w.QuerySystemActivity env systemActivityID).1 =
      decodeOutcome env.decodeActivity (fun v => v.Errors) response.Body := by
  unfold WizAPI.QuerySystemActivity decodeOutcome
  dsimp only
  generalize w.QueryWithRetry env graphSystemActivityQuery
    [("id", .string systemActivityID)] = qr at h ⊢
  rcases qr with ⟨res, tr⟩
  simp only at h
  subst h
  dsimp only
  cases env.decodeActivity response.Body with
  | error err => rfl
  | ok u => dsimp only; split <;> rfl

/-- C16: the query operations never read the HTTP status of the response that
`QueryWithRetry` returns: the result of `RequestSecurityScanUpload` and of
`QuerySystemActivity` is `decodeOutcome` of the body of that response, a function
of the body alone. So for every status outside 429, 502, 503, 504, error
statuses such as 400, 401, 403 and 500 included, a first response whose body
decodes to a value without errors makes the operation return that value. -/
theorem query_operations_ignore_status (w : WizAPI) (env : HTTPEnv)
    (hm : ∀ d, ∃ jsonData, env.jsonMarshal d = .ok jsonData)
    (hu : env.urlParseError w.ClientQueryURL = none) :
    (∀ filename response,
      (w.QueryWithRetry env graphFileUploadRequest
        [("filename", .string filename)]).1 = .ok response →
      (w.RequestSecurityScanUpload env filename).1 =
        decodeOutcome env.decodeUpload (fun v => v.Errors) response.Body) ∧
    (∀ systemActivityID response,
      (w.QueryWithRetry env graphSystemActivityQuery
        [("id", .string systemActivityID)]).1 = .ok response →
      (w.QuerySystemActivity env systemActivityID).1 =
        decodeOutcome env.decodeActivity (fun v => v.Errors) response.Body) ∧
    (∀ filename r v, env.Do 0 = .resp r →
      ¬ (r.StatusCode = 429 ∨ r.StatusCode = 502 ∨ r.StatusCode = 503 ∨
        r.StatusCode = 504) →
      env.decodeUpload r.Body = .ok v → v.Errors = [] →
      (w.RequestSecurityScanUpload env filename).1 = .ok v) ∧
    (∀ systemActivityID r v, env.Do 0 = .resp r →
      ¬ (r.StatusCode = 429 ∨ r.StatusCode = 502 ∨ r.StatusCode = 503 ∨
        r.StatusCode = 504) →
      env.decodeActivity r.Body = .ok v → v.Errors = [] →
      (w.QuerySystemActivity env systemActivityID).1 = .ok v) := by
  refine ⟨fun filename response h => RequestSecurityScanUpload_of_response w env filename
      response h,
    fun systemActivityID response h => QuerySystemActivity_of_response w env systemActivityID
      response h, ?_, ?_⟩
  · intro filename r v h0 hnon hd he
    have hr : w.RetryableResponseStatusCode r.StatusCode = false := by
      rw [Bool.eq_false_iff]
      exact fun h => hnon ((retryable_iff w _).1 h)
    obtain ⟨jsonData, hj⟩ := hm (queryData graphFileUploadRequest
      [("filename", .string filename)])
    rw [RequestSecurityScanUpload_of_response w env filename r
      (QueryWithRetry_first_response w env _ _ jsonData r hj hu h0 hr)]
    simp [decodeOutcome, hd, he]
  · intro systemActivityID r v h0 hnon hd he
    have hr : w.RetryableResponseStatusCode r.StatusCode = false := by
      rw [Bool.eq_false_iff]
      exact fun h => hnon ((retryable_iff w _).1 h)
    obtain ⟨jsonData, hj⟩ := hm (queryData graphSystemActivityQuery
      [("id", .string systemActivityID)])
    rw [QuerySystemActivity_of_response w env systemActivityID r
      (QueryWithRetry_first_response w env _ _ jsonData r hj hu h0 hr)]
    simp [decodeOutcome, hd, he]

/-- Witness of C16: the answer has status 500 and a body that decodes to an
upload response with every field empty and no errors; the operation succeeds
with that value. -/
theorem query_operations_ignore_status_witness :
    ((NewWizAPI "id" "secret" "https://auth" "https://api").RequestSecurityScanUpload
        (envAlways 500) "state-current.json").1 =
      .ok { Data := { RequestSecurityScanUpload := { Upload :=
              { ID := "", URL := "", SystemActivityId := "" } } }
            Errors := [] } :=
  (query_operations_ignore_status (NewWizAPI "id" "secret" "https://auth" "https://api")
    (envAlways 500) (fun _ => ⟨"body", rfl⟩) rfl).2.2.1 "state-current.json"
    { StatusCode := 500, Status := "", Body := "" } _ rfl (by decide) rfl rfl

/-! ## Open response bodies -/

/-- The bodies `QueryWithRetry` leaves open: the body of the response it
returns, and no other; every response discarded as retryable is closed. -/
theorem QueryWithRetry_open_bodies (w : WizAPI) (env : HTTPEnv) (query : String)
    (queryVariables : GoMap JSONValue) (jsonData : String)
    (hm : env.jsonMarshal (queryData query queryVariables) = .ok jsonData)
    (hu : env.urlParseError w.ClientQueryURL = none) :
    openBodies env (w.QueryWithRetry env query queryVariables).2 =
      match (w.QueryWithRetry env query queryVariables).1 with
      | .ok _ => 1
      | _ => 0 := by
  simp only [queryData] at hm
  rcases h0 : env.Do 0 with e0 | r0
  · rcases h1 : env.Do 1 with e1 | r1
    · rcases h2 : env.Do 2 with e2 | r2
      · simp [WizAPI.QueryWithRetry, retryLoop, httpNewRequest, hm, hu, openBodies, Event.bodyDelta, h0, h1, h2]
      · by_cases c2 : w.RetryableResponseStatusCode r2.StatusCode = true
        · simp [WizAPI.QueryWithRetry, retryLoop, httpNewRequest, hm, hu, openBodies, Event.bodyDelta, h0, h1, h2, c2]
        · have d2 : w.RetryableResponseStatusCode r2.StatusCode = false := by simpa using c2
          simp [WizAPI.QueryWithRetry, retryLoop, httpNewRequest, hm, hu, openBodies, Event.bodyDelta, h0, h1, h2, d2]
    · by_cases c1 : w.RetryableResponseStatusCode r1.StatusCode = true
      · rcases h2 : env.Do 2 with e2 | r2
        · simp [WizAPI.QueryWithRetry, retryLoop, httpNewRequest, hm, hu, openBodies, Event.bodyDelta, h0, h1, c1, h2]
        · by_cases c2 : w.RetryableResponseStatusCode r2.StatusCode = true
          · simp [WizAPI.QueryWithRetry, retryLoop, httpNewRequest, hm, hu, openBodies, Event.bodyDelta, h0, h1, c1, h2, c2]
          · have d2 : w.RetryableResponseStatusCode r2.StatusCode = false := by simpa using c2
            simp [WizAPI.QueryWithRetry, retryLoop, httpNewRequest, hm, hu, openBodies, Event.bodyDelta, h0, h1, c1, h2, d2]
      · have d1 : w.RetryableResponseStatusCode r1.StatusCode = false := by simpa using c1
        simp [WizAPI.QueryWithRetry, retryLoop, httpNewRequest, hm, hu, openBodies, Event.bodyDelta, h0, h1, d1]
  · by_cases c0 : w.RetryableResponseStatusCode r0.StatusCode = true
    · rcases h1 : env.Do 1 with e1 | r1
      · rcases h2 : env.Do 2 with e2 | r2
        · simp [WizAPI.QueryWithRetry, retryLoop, httpNewRequest, hm, hu, openBodies, Event.bodyDelta, h0, c0, h1, h2]
        · by_cases c2 : w.RetryableResponseStatusCode r2.StatusCode = true
          · simp [WizAPI.QueryWithRetry, retryLoop, httpNewRequest, hm, hu, openBodies, Event.bodyDelta, h0, c0, h1, h2, c2]
          · have d2 : w.RetryableResponseStatusCode r2.StatusCode = false := by simpa using c2
            simp [WizAPI.QueryWithRetry, retryLoop, httpNewRequest, hm, hu, openBodies, Event.bodyDelta, h0, c0, h1, h2, d2]
      · by_cases c1 : w.RetryableResponseStatusCode r1.StatusCode = true
        · rcases h2 : env.Do 2 with e2 | r2
          · simp [WizAPI.QueryWithRetry, retryLoop, httpNewRequest, hm, hu, openBodies, Event.bodyDelta, h0, c0, h1, c1, h2]
          · by_cases c2 : w.RetryableResponseStatusCode r2.StatusCode = true
            · simp [WizAPI.QueryWithRetry, retryLoop, httpNewRequest, hm, hu, openBodies, Event.bodyDelta, h0, c0, h1, c1, h2, c2]
            · have d2 : w.RetryableResponseStatusCode r2.StatusCode = false := by simpa using c2
              simp [WizAPI.QueryWithRetry, retryLoop, httpNewRequest, hm, hu, openBodies, Event.bodyDelta, h0, c0, h1, c1, h2, d2]
        · have d1 : w.RetryableResponseStatusCode r1.StatusCode = false := by simpa using c1
          simp [WizAPI.QueryWithRetry, retryLoop, httpNewRequest, hm, hu, openBodies, Event.bodyDelta, h0, c0, h1, d1]
    · have d0 : w.RetryableResponseStatusCode r0.StatusCode = false := by simpa using c0
      simp [WizAPI.QueryWithRetry, retryLoop, httpNewRequest, hm, hu, openBodies, Event.bodyDelta, h0, d0]

/-- Every run of `RequestSecurityScanUpload` that received a response returns
with the body of that response open. -/
theorem RequestSecurityScanUpload_open_bodies (w : WizAPI) (env : HTTPEnv)
    (filename jsonData : String) (response : Response)
    (hm : env.jsonMarshal (queryData graphFileUploadRequest
      [("filename", .string filename)]) = .ok jsonData)
    (hu : env.urlParseError w.ClientQueryURL = none)
    (h : (w.QueryWithRetry env graphFileUploadRequest
      [("filename", .string filename)]).1 = .ok response) :
    openBodies env (w.RequestSecurityScanUpload env filename).2 = 1 := by
  have ho := QueryWithRetry_open_bodies w env _ _ jsonData hm hu
  rw [h] at ho
  have htr : (w.RequestSecurityScanUpload env filename).2 =
      (w.QueryWithRetry env graphFileUploadRequest [("filename", .string filename)]).2 := by
    unfold WizAPI.RequestSecurityScanUpload
    dsimp only
    generalize w.QueryWithRetry env graphFileUploadRequest
      [("filename", .string filename)] = qr
    rcases qr with ⟨res, tr⟩
    cases res with
    | ok response =>
      dsimp only
      cases env.decodeUpload response.Body with
      | error err => rfl
      | ok u => dsimp only; split <;> rfl
    | error err => rfl
    | nilDeref => rfl
  rw [htr]
  exact ho

/-- Every run of `QuerySystemActivity` returns with no response body open. -/
theorem QuerySystemActivity_open_bodies (w : WizAPI) (env : HTTPEnv)
    (systemActivityID jsonData : String)
    (hm : env.jsonMarshal (queryData graphSystemActivityQuery
      [("id", .string systemActivityID)]) = .ok jsonData)
    (hu : env.urlParseError w.ClientQueryURL = none) :
    openBodies env (w.QuerySystemActivity env systemActivityID).2 = 0 := by
  have ho := QueryWithRetry_open_bodies w env _ _ jsonData hm hu
  unfold WizAPI.QuerySystemActivity
  dsimp only
  generalize w.QueryWithRetry env graphSystemActivityQuery
    [("id", .string systemActivityID)] = qr at ho ⊢
  rcases qr with ⟨res, tr⟩
  cases res with
  | ok response =>
    dsimp only at ho ⊢
    have happ : openBodies env (tr ++ [.closeBody response]) = 0 := by
      simp [openBodies, Event.bodyDelta] at ho ⊢
      omega
    cases env.decodeActivity response.Body with
    | error err => exact happ
    | ok u => dsimp only; split <;> exact happ
  | error err => exact ho
  | nilDeref => exact ho

/-- C11 fails on the code: with a first answer of status 200,
`RequestSecurityScanUpload` returns (on its success path and on its
`graphql errors` path) and `GraphResourceSearch` returns (on its decode-error
path) with one response body still open, since neither closes the body of the
response it received. `QuerySystemActivity`, which defers the close, leaves none
open at the same input, and `QueryWithRetry` closes the three bodies it discards
as retryable. -/
theorem query_operations_leave_body_open :
    ((NewWizAPI "id" "secret" "https://auth" "https://api").RequestSecurityScanUpload
        (envAlways 200) "state-current.json").1 =
      .ok { Data := { RequestSecurityScanUpload := { Upload :=
              { ID := "", URL := "", SystemActivityId := "" } } }
            Errors := [] } ∧
    openBodies (envAlways 200)
      ((NewWizAPI "id" "secret" "https://auth" "https://api").RequestSecurityScanUpload
        (envAlways 200) "state-current.json").2 = 1 ∧
    openBodies envPopulatedWithErrors
      ((NewWizAPI "id" "secret" "https://auth" "https://api").RequestSecurityScanUpload
        envPopulatedWithErrors "state-current.json").2 = 1 ∧
    openBodies (envAlways 200)
      ((NewWizAPI "id" "secret" "https://auth" "https://api").GraphResourceSearch
        (envAlways 200) cfgSample).2 = 1 ∧
    openBodies (envAlways 200)
      ((NewWizAPI "id" "secret" "https://auth" "https://api").QuerySystemActivity
        (envAlways 200) "a1").2 = 0 ∧
    openBodies (envAlways 503)
      ((NewWizAPI "id" "secret" "https://auth" "https://api").QueryWithRetry
        (envAlways 503) "q" []).2 = 0 := by
  refine ⟨rfl, ?_, ?_, ?_, ?_, ?_⟩ <;> decide

/-! ## The request body across retries -/

/-- One loop, two readings: when the outcome of each call of `Session.Do` does
not depend on the state of the request, the loop with the request state explicit
computes the response, the error and the trace of `retryLoop`. -/
theorem retryLoopLive_refines (w : WizAPI) (env : HTTPEnv) (wire : Wire) (retryDelay : Nat)
    (h : ∀ n r, (wire.Do n r).outcome = env.Do n) :
    ∀ (remaining attempt : Nat) (st : LiveVars),
      retryLoop w env st.request.request retryDelay remaining attempt
          { response := st.response, err := st.err, trace := st.trace } =
        { response := (retryLoopLive w wire retryDelay remaining attempt st).response
          err := (retryLoopLive w wire retryDelay remaining attempt st).err
          trace := (retryLoopLive w wire retryDelay remaining attempt st).trace } := by
  intro remaining
  induction remaining with
  | zero =>
    intro attempt st
    rfl
  | succ n ih =>
    intro attempt st
    rw [retryLoop, retryLoopLive, h attempt st.request]
    cases env.Do attempt with
    | err e =>
      dsimp only
      exact ih (attempt + 1)
        { response := none
          err := some e
          request := { st.request with unread := (wire.Do attempt st.request).unreadAfter }
          delivered := st.delivered ++ [(wire.Do attempt st.request).delivered]
          trace := st.trace ++
            [ .doRequest attempt st.request.request
            , .log ("Error querying Wiz API: " ++ e ++ "\n")
            , .sleep retryDelay ] }
    | resp r =>
      dsimp only
      split
      · rfl
      · exact ih (attempt + 1)
          { response := some r
            err := none
            request := { st.request with unread := (wire.Do attempt st.request).unreadAfter }
            delivered := st.delivered ++ [(wire.Do attempt st.request).delivered]
            trace := st.trace ++
              [ .doRequest attempt st.request.request
              , .closeBody r
              , .log ("Retrying due to status code: " ++ toString r.StatusCode ++
                  ", attempt: " ++ toString (attempt + 1) ++ "\n")
              , .sleep retryDelay ] }

/-- The run with the request state explicit has the result and the trace of
`WizAPI.QueryWithRetry`. -/
theorem QueryWithRetryLive_refines (w : WizAPI) (env : HTTPEnv) (wire : Wire) (query : String)
    (queryVariables : GoMap JSONValue) (h : ∀ n r, (wire.Do n r).outcome = env.Do n) :
    (w.QueryWithRetryLive env wire query queryVariables).result =
        (w.QueryWithRetry env query queryVariables).1 ∧
      (w.QueryWithRetryLive env wire query queryVariables).trace =
        (w.QueryWithRetry env query queryVariables).2 := by
  unfold WizAPI.QueryWithRetryLive WizAPI.QueryWithRetry
  dsimp only
  cases env.jsonMarshal (.object [("query", .string query), ("variables", .object queryVariables)]) with
  | error err => exact ⟨rfl, rfl⟩
  | ok jsonData =>
    dsimp only
    cases httpNewRequest env "POST" w.ClientQueryURL jsonData with
    | error err => exact ⟨rfl, rfl⟩
    | ok request0 =>
      dsimp only
      have hl := retryLoopLive_refines w env wire 2 h 3 0
        { response := none, err := none
          request :=
            { request := ((request0.headerSet "Authorization" ("Bearer " ++ w.AuthToken)).headerAdd
                "Accept" "application/json").headerSet "Content-Type" "application/json"
              unread := jsonData }
          delivered := [], trace := [] }
      dsimp only at hl
      rw [hl]
      dsimp only
      cases (retryLoopLive w wire 2 3 0
        { response := none, err := none
          request :=
            { request := ((request0.headerSet "Authorization" ("Bearer " ++ w.AuthToken)).headerAdd
                "Accept" "application/json").headerSet "Content-Type" "application/json"
              unread := jsonData }
          delivered := [], trace := [] }).err with
      | some err => exact ⟨rfl, rfl⟩
      | none =>
        dsimp only
        cases (retryLoopLive w wire 2 3 0
          { response := none, err := none
            request :=
              { request := ((request0.headerSet "Authorization"
                  ("Bearer " ++ w.AuthToken)).headerAdd
                  "Accept" "application/json").headerSet "Content-Type" "application/json"
                unread := jsonData }
            delivered := [], trace := [] }).response with
        | none => exact ⟨rfl, rfl⟩
        | some response =>
          dsimp only
          split <;> exact ⟨rfl, rfl⟩

/-- A streaming transport delivers the whole body of a request that has not been
read, at any attempt that is answered. -/
theorem wireStreaming_fresh_request (server : Nat → DoOutcome) (n : Nat) (request : Request)
    (jsonData : String) (x : Response) (h : server n = .resp x) :
    ((wireStreaming server).Do n { request := request, unread := jsonData }).delivered =
      some jsonData := by
  simp [wireStreaming, h]

/-- The outcomes of a streaming transport are those of its server. -/
theorem wireStreaming_outcome (server : Nat → DoOutcome) (n : Nat) (r : LiveRequest) :
    ((wireStreaming server).Do n r).outcome = server n := by
  unfold wireStreaming
  dsimp only
  cases server n <;> rfl

/-- With a streaming transport, when the first attempt of `QueryWithRetry` is
answered with a retryable status, that attempt delivers the marshalled body, a
second attempt is made, and every later attempt that sends a request delivers an
empty body. -/
theorem QueryWithRetryLive_streaming (w : WizAPI) (env : HTTPEnv) (server : Nat → DoOutcome)
    (query : String) (queryVariables : GoMap JSONValue) (jsonData : String) (r0 : Response)
    (hm : env.jsonMarshal (queryData query queryVariables) = .ok jsonData)
    (hu : env.urlParseError w.ClientQueryURL = none)
    (h0 : server 0 = .resp r0) (c0 : w.RetryableResponseStatusCode r0.StatusCode = true) :
    (w.QueryWithRetryLive env (wireStreaming server) query queryVariables).delivered.head? =
        some (some jsonData) ∧
      2 ≤ (w.QueryWithRetryLive env (wireStreaming server) query
        queryVariables).delivered.length ∧
      ∀ b ∈ (w.QueryWithRetryLive env (wireStreaming server) query
          queryVariables).delivered.tail,
        b = none ∨ b = some "" := by
  simp only [queryData] at hm
  rcases h1 : server 1 with e1 | r1
  · rcases h2 : server 2 with e2 | r2
    · simp [WizAPI.QueryWithRetryLive, retryLoopLive, httpNewRequest, hm, hu, wireStreaming, h0, c0, h1, h2]
    · by_cases c2 : w.RetryableResponseStatusCode r2.StatusCode = true
      · simp [WizAPI.QueryWithRetryLive, retryLoopLive, httpNewRequest, hm, hu, wireStreaming, h0, c0, h1, h2, c2]
      · have d2 : w.RetryableResponseStatusCode r2.StatusCode = false := by simpa using c2
        simp [WizAPI.QueryWithRetryLive, retryLoopLive, httpNewRequest, hm, hu, wireStreaming, h0, c0, h1, h2, d2]
  · by_cases c1 : w.RetryableResponseStatusCode r1.StatusCode = true
    · rcases h2 : server 2 with e2 | r2
      · simp [WizAPI.QueryWithRetryLive, retryLoopLive, httpNewRequest, hm, hu, wireStreaming, h0, c0, h1, c1, h2]
      · by_cases c2 : w.RetryableResponseStatusCode r2.StatusCode = true
        · simp [WizAPI.QueryWithRetryLive, retryLoopLive, httpNewRequest, hm, hu, wireStreaming, h0, c0, h1, c1, h2, c2]
        · have d2 : w.RetryableResponseStatusCode r2.StatusCode = false := by simpa using c2
          simp [WizAPI.QueryWithRetryLive, retryLoopLive, httpNewRequest, hm, hu, wireStreaming, h0, c0, h1, c1, h2, d2]
    · have d1 : w.RetryableResponseStatusCode r1.StatusCode = false := by simpa using c1
      simp [WizAPI.QueryWithRetryLive, retryLoopLive, httpNewRequest, hm, hu, wireStreaming, h0, c0, h1, d1]

/-- With a transport that rewinds the body it finds read, every attempt of
`QueryWithRetry` that sends a request delivers the marshalled body. -/
theorem QueryWithRetryLive_rewinding (w : WizAPI) (env : HTTPEnv) (server : Nat → DoOutcome)
    (query : String) (queryVariables : GoMap JSONValue) (jsonData : String)
    (hm : env.jsonMarshal (queryData query queryVariables) = .ok jsonData)
    (hu : env.urlParseError w.ClientQueryURL = none) :
    ∀ b ∈ (w.QueryWithRetryLive env (wireRewinding server) query queryVariables).delivered,
      b = none ∨ b = some jsonData := by
  simp only [queryData] at hm
  rcases h0 : server 0 with e0 | r0
  · rcases h1 : server 1 with e1 | r1
    · rcases h2 : server 2 with e2 | r2
      · simp [WizAPI.QueryWithRetryLive, retryLoopLive, httpNewRequest, hm, hu, wireRewinding, Request.headerSet, Request.headerAdd, h0, h1, h2]
      · by_cases c2 : w.RetryableResponseStatusCode r2.StatusCode = true
        · simp [WizAPI.QueryWithRetryLive, retryLoopLive, httpNewRequest, hm, hu, wireRewinding, Request.headerSet, Request.headerAdd, h0, h1, h2, c2]
        · have d2 : w.RetryableResponseStatusCode r2.StatusCode = false := by simpa using c2
          simp [WizAPI.QueryWithRetryLive, retryLoopLive, httpNewRequest, hm, hu, wireRewinding, Request.headerSet, Request.headerAdd, h0, h1, h2, d2]
    · by_cases c1 : w.RetryableResponseStatusCode r1.StatusCode = true
      · rcases h2 : server 2 with e2 | r2
        · simp [WizAPI.QueryWithRetryLive, retryLoopLive, httpNewRequest, hm, hu, wireRewinding, Request.headerSet, Request.headerAdd, h0, h1, c1, h2]
        · by_cases c2 : w.RetryableResponseStatusCode r2.StatusCode = true
          · simp [WizAPI.QueryWithRetryLive, retryLoopLive, httpNewRequest, hm, hu, wireRewinding, Request.headerSet, Request.headerAdd, h0, h1, c1, h2, c2]
          · have d2 : w.RetryableResponseStatusCode r2.StatusCode = false := by simpa using c2
            simp [WizAPI.QueryWithRetryLive, retryLoopLive, httpNewRequest, hm, hu, wireRewinding, Request.headerSet, Request.headerAdd, h0, h1, c1, h2, d2]
      · have d1 : w.RetryableResponseStatusCode r1.StatusCode = false := by simpa using c1
        simp [WizAPI.QueryWithRetryLive, retryLoopLive, httpNewRequest, hm, hu, wireRewinding, Request.headerSet, Request.headerAdd, h0, h1, d1]
  · by_cases c0 : w.RetryableResponseStatusCode r0.StatusCode = true
    · rcases h1 : server 1 with e1 | r1
      · rcases h2 : server 2 with e2 | r2
        · simp [WizAPI.QueryWithRetryLive, retryLoopLive, httpNewRequest, hm, hu, wireRewinding, Request.headerSet, Request.headerAdd, h0, c0, h1, h2]
        · by_cases c2 : w.RetryableResponseStatusCode r2.StatusCode = true
          · simp [WizAPI.QueryWithRetryLive, retryLoopLive, httpNewRequest, hm, hu, wireRewinding, Request.headerSet, Request.headerAdd, h0, c0, h1, h2, c2]
          · have d2 : w.RetryableResponseStatusCode r2.StatusCode = false := by simpa using c2
            simp [WizAPI.QueryWithRetryLive, retryLoopLive, httpNewRequest, hm, hu, wireRewinding, Request.headerSet, Request.headerAdd, h0, c0, h1, h2, d2]
      · by_cases c1 : w.RetryableResponseStatusCode r1.StatusCode = true
        · rcases h2 : server 2 with e2 | r2
          · simp [WizAPI.QueryWithRetryLive, retryLoopLive, httpNewRequest, hm, hu, wireRewinding, Request.headerSet, Request.headerAdd, h0, c0, h1, c1, h2]
          · by_cases c2 : w.RetryableResponseStatusCode r2.StatusCode = true
            · simp [WizAPI.QueryWithRetryLive, retryLoopLive, httpNewRequest, hm, hu, wireRewinding, Request.headerSet, Request.headerAdd, h0, c0, h1, c1, h2, c2]
            · have d2 : w.RetryableResponseStatusCode r2.StatusCode = false := by simpa using c2
              simp [WizAPI.QueryWithRetryLive, retryLoopLive, httpNewRequest, hm, hu, wireRewinding, Request.headerSet, Request.headerAdd, h0, c0, h1, c1, h2, d2]
        · have d1 : w.RetryableResponseStatusCode r1.StatusCode = false := by simpa using c1
          simp [WizAPI.QueryWithRetryLive, retryLoopLive, httpNewRequest, hm, hu, wireRewinding, Request.headerSet, Request.headerAdd, h0, c0, h1, d1]
    · have d0 : w.RetryableResponseStatusCode r0.StatusCode = false := by simpa using c0
      simp [WizAPI.QueryWithRetryLive, retryLoopLive, httpNewRequest, hm, hu, wireRewinding, Request.headerSet, Request.headerAdd, h0, d0]

/-- C14 fails on the code: every attempt is handed the one request built before
the loop, with the three headers, and so finds its body as the previous attempt
left it. With a transport that sends what the body of the request yields, and a
server that answers 503, the first attempt delivers the marshalled body and the
second and third deliver an empty body; the call ends with
`max retries reached with status code: 503`, as in `WizAPI.QueryWithRetry`. -/
theorem retry_delivers_drained_body :
    (clientWithToken.QueryWithRetryLive (envAlways 503) (wireStreaming (envAlways 503).Do)
        "q" []).delivered = [some "body", some "", some ""] ∧
    requestsOf (clientWithToken.QueryWithRetryLive (envAlways 503)
        (wireStreaming (envAlways 503).Do) "q" []).trace =
      List.replicate 3
        { Method := "POST", URL := "https://api"
          Header :=
            [ ("Authorization", ["Bearer tok"]), ("Accept", ["application/json"])
            , ("Content-Type", ["application/json"]) ]
          Body := "body" } ∧
    (clientWithToken.QueryWithRetryLive (envAlways 503) (wireStreaming (envAlways 503).Do)
        "q" []).result =
      .error ("max retries reached with status code: " ++ toString (503 : Int)) ∧
    (clientWithToken.QueryWithRetryLive (envAlways 503) (wireStreaming (envAlways 503).Do)
        "q" []).result = (clientWithToken.QueryWithRetry (envAlways 503) "q" []).1 ∧
    (clientWithToken.QueryWithRetryLive (envAlways 503) (wireStreaming (envAlways 503).Do)
        "q" []).trace = (clientWithToken.QueryWithRetry (envAlways 503) "q" []).2 := by
  refine ⟨by decide, by decide, rfl, rfl, rfl⟩

/-! ## Function `extractJSON` -/

/-- No first position exactly when the byte does not occur. -/
theorem firstIndexByte_eq_none (c : UInt8) (s : List UInt8) :
    firstIndexByte c s = none ↔ c ∉ s := by
  induction s with
  | nil => simp [firstIndexByte]
  | cons b rest ih =>
    by_cases hb : b = c
    · simp [firstIndexByte, hb]
    · have hcb : ¬ c = b := fun h => hb h.symm
      simp [firstIndexByte, hb, hcb, ih]

/-- The first position of a byte preceded by none of its kind. -/
theorem firstIndexByte_append (c : UInt8) (p q : List UInt8) (h : c ∉ p) :
    firstIndexByte c (p ++ c :: q) = some p.length := by
  induction p with
  | nil => simp [firstIndexByte]
  | cons b rest ih =>
    have hb : ¬ b = c := fun e => h (by simp [e])
    have hr : c ∉ rest := fun e => h (List.mem_cons_of_mem _ e)
    simp [firstIndexByte, hb, ih hr]

/-- A first position splits the text at the first occurrence. -/
theorem firstIndexByte_some (c : UInt8) (s : List UInt8) (i : Nat)
    (h : firstIndexByte c s = some i) :
    ∃ p q, s = p ++ c :: q ∧ c ∉ p ∧ p.length = i := by
  induction s generalizing i with
  | nil => simp [firstIndexByte] at h
  | cons b rest ih =>
    by_cases hb : b = c
    · simp [firstIndexByte, hb] at h
      exact ⟨[], rest, by simp [hb], by simp, by simp [h]⟩
    · simp only [firstIndexByte, hb, if_false, Option.map_eq_some'] at h
      obtain ⟨k, hk, rfl⟩ := h
      obtain ⟨p, q, hs, hp, hl⟩ := ih k hk
      refine ⟨b :: p, q, by simp [hs], ?_, by simp [hl]⟩
      simp only [List.mem_cons, not_or]
      exact ⟨fun e => hb e.symm, hp⟩

/-- No last position exactly when the byte does not occur. -/
theorem lastIndexByte_eq_none (c : UInt8) (s : List UInt8) :
    lastIndexByte c s = none ↔ c ∉ s := by
  induction s with
  | nil => simp [lastIndexByte]
  | cons b rest ih =>
    cases hr : lastIndexByte c rest with
    | none =>
      have hn := ih.1 hr
      by_cases hb : b = c
      · simp [lastIndexByte, hr, hb]
      · have hcb : ¬ c = b := fun h => hb h.symm
        simp [lastIndexByte, hr, hb, hcb, hn]
    | some k =>
      have hm : c ∈ rest := by
        by_contra hn
        rw [ih.2 hn] at hr
        cases hr
      simp [lastIndexByte, hr, hm]

/-- The last position of a byte followed by none of its kind. -/
theorem lastIndexByte_append (c : UInt8) (p q : List UInt8) (h : c ∉ q) :
    lastIndexByte c (p ++ c :: q) = some p.length := by
  induction p with
  | nil => simp [lastIndexByte, (lastIndexByte_eq_none c q).2 h]
  | cons b rest ih => simp [lastIndexByte, ih]

/-- A last position splits the text at the last occurrence. -/
theorem lastIndexByte_some (c : UInt8) (s : List UInt8) (j : Nat)
    (h : lastIndexByte c s = some j) :
    ∃ p q, s = p ++ c :: q ∧ c ∉ q ∧ p.length = j := by
  induction s generalizing j with
  | nil => simp [lastIndexByte] at h
  | cons b rest ih =>
    cases hr : lastIndexByte c rest with
    | none =>
      have hn := (lastIndexByte_eq_none c rest).1 hr
      by_cases hb : b = c
      · simp [lastIndexByte, hr, hb] at h
        exact ⟨[], rest, by simp [hb], hn, by simp [h]⟩
      · simp [lastIndexByte, hr, hb] at h
    | some k =>
      simp [lastIndexByte, hr] at h
      obtain ⟨p, q, hs, hq, hl⟩ := ih k hr
      exact ⟨b :: p, q, by simp [hs], hq, by simp [hl, h]⟩

/-- Function `extractJSON` in terms of the two positions as natural numbers. -/
theorem extractJSON_eq (s : List UInt8) :
    extractJSON s =
      match firstIndexByte openBrace s with
      | none => .error "no opening brace of JSON object found"
      | some i =>
        match lastIndexByte closeBrace s with
        | none => .error "no closing brace of JSON object found"
        | some j =>
          if j + 1 ≤ i then .error "invalid JSON boundaries found"
          else .ok ((s.drop i).take (j + 1 - i)) := by
  unfold extractJSON stringsIndex stringsLastIndex
  cases hf : firstIndexByte openBrace s with
  | none => simp
  | some i =>
    cases hl : lastIndexByte closeBrace s with
    | none =>
      have h1 : ¬ ((i : Int) = -1) := by omega
      simp [h1]
    | some j =>
      have h1 : ¬ ((i : Int) = -1) := by omega
      have h2 : ¬ ((j : Int) = -1) := by omega
      have h3 : ((j : Int) + 1).toNat = j + 1 := by omega
      by_cases h : j + 1 ≤ i
      · have h4 : (j : Int) + 1 ≤ i := by omega
        simp [h1, h2, h, h4]
      · have h4 : ¬ ((j : Int) + 1 ≤ i) := by omega
        simp [h1, h2, h3, h, h4]

/-- The text between the first opening brace and the last closing brace. -/
theorem extractJSON_of_decomposition (p m q : List UInt8) (hp : openBrace ∉ p)
    (hq : closeBrace ∉ q) :
    extractJSON (p ++ (openBrace :: m ++ [closeBrace]) ++ q) =
      .ok (openBrace :: m ++ [closeBrace]) := by
  have hs1 : p ++ (openBrace :: m ++ [closeBrace]) ++ q =
      p ++ openBrace :: (m ++ closeBrace :: q) := by simp
  have hs2 : p ++ (openBrace :: m ++ [closeBrace]) ++ q =
      (p ++ openBrace :: m) ++ closeBrace :: q := by simp
  have hf : firstIndexByte openBrace (p ++ (openBrace :: m ++ [closeBrace]) ++ q) =
      some p.length := by
    rw [hs1]
    exact firstIndexByte_append openBrace p (m ++ closeBrace :: q) hp
  have hl : lastIndexByte closeBrace (p ++ (openBrace :: m ++ [closeBrace]) ++ q) =
      some (p.length + (m.length + 1)) := by
    rw [hs2]
    have h := lastIndexByte_append closeBrace (p ++ openBrace :: m) q hq
    simpa using h
  rw [extractJSON_eq, hf, hl]
  have h1 : ¬ (p.length + (m.length + 1) + 1 ≤ p.length) := by omega
  have h2 : p.length + (m.length + 1) + 1 - p.length = (openBrace :: m ++ [closeBrace]).length := by
    simp
    omega
  simp only [h1, if_false, h2, List.append_assoc, List.drop_left]
  congr 1
  have h3 : openBrace :: m ++ ([closeBrace] ++ q) = (openBrace :: m ++ [closeBrace]) ++ q := by
    simp
  rw [h3]
  exact List.take_left' rfl

/-- A successful extraction is the text between the first opening brace and the
last closing brace. -/
theorem extractJSON_ok (s r : List UInt8) (h : extractJSON s = .ok r) :
    ∃ p m q, s = p ++ (openBrace :: m ++ [closeBrace]) ++ q ∧ openBrace ∉ p ∧
      closeBrace ∉ q ∧ r = openBrace :: m ++ [closeBrace] := by
  have h0 := h
  rw [extractJSON_eq] at h
  cases hf : firstIndexByte openBrace s with
  | none => simp [hf] at h
  | some i =>
    cases hl : lastIndexByte closeBrace s with
    | none => simp [hf, hl] at h
    | some j =>
      obtain ⟨p1, q1, hs1, hp1, hi⟩ := firstIndexByte_some _ _ _ hf
      obtain ⟨p2, q2, hs2, hq2, hj⟩ := lastIndexByte_some _ _ _ hl
      by_cases hji : j + 1 ≤ i
      · simp [hf, hl, hji] at h
      · have heq : p1 ++ openBrace :: q1 = p2 ++ closeBrace :: q2 := by rw [← hs1, ← hs2]
        rcases List.append_eq_append_iff.1 heq with ⟨a, ha, hb⟩ | ⟨c, hc, hd⟩
        · cases a with
          | nil =>
            simp at hb
            exact absurd hb.1 (by decide)
          | cons x m =>
            simp only [List.cons_append, List.cons.injEq] at hb
            obtain ⟨hx, hq1⟩ := hb
            have hs : s = p1 ++ (openBrace :: m ++ [closeBrace]) ++ q2 := by
              rw [hs1, hq1]
              simp
            refine ⟨p1, m, q2, hs, hp1, hq2, ?_⟩
            have hok := extractJSON_of_decomposition p1 m q2 hp1 hq2
            rw [← hs, h0] at hok
            exact Except.ok.inj hok
        · have hlen : p1.length = p2.length + c.length := by rw [hc]; simp
          cases c with
          | nil =>
            simp at hd
            exact absurd hd.1.symm (by decide)
          | cons x c1 =>
            simp at hlen
            omega

/-- A failing extraction: no opening brace, no closing brace, or the last
closing brace before the first opening brace. -/
theorem extractJSON_error_iff (s : List UInt8) :
    (∃ e, extractJSON s = .error e) ↔
      openBrace ∉ s ∨ closeBrace ∉ s ∨
      ∃ a b c, s = a ++ closeBrace :: b ++ openBrace :: c ∧
        openBrace ∉ a ++ closeBrace :: b ∧ closeBrace ∉ b ++ openBrace :: c := by
  constructor
  · rintro ⟨e, he⟩
    rw [extractJSON_eq] at he
    cases hf : firstIndexByte openBrace s with
    | none => exact Or.inl ((firstIndexByte_eq_none _ _).1 hf)
    | some i =>
      cases hl : lastIndexByte closeBrace s with
      | none => exact Or.inr (Or.inl ((lastIndexByte_eq_none _ _).1 hl))
      | some j =>
        obtain ⟨p1, q1, hs1, hp1, hi⟩ := firstIndexByte_some _ _ _ hf
        obtain ⟨p2, q2, hs2, hq2, hj⟩ := lastIndexByte_some _ _ _ hl
        by_cases hji : j + 1 ≤ i
        · refine Or.inr (Or.inr ?_)
          have heq : p2 ++ closeBrace :: q2 = p1 ++ openBrace :: q1 := by rw [← hs1, ← hs2]
          rcases List.append_eq_append_iff.1 heq with ⟨a, ha, hb⟩ | ⟨c, hc, hd⟩
          · cases a with
            | nil =>
              simp at ha
              rw [ha] at hi
              omega
            | cons x b =>
              simp only [List.cons_append, List.cons.injEq] at hb
              obtain ⟨hx, hq2b⟩ := hb
              subst hx
              refine ⟨p2, b, q1, ?_, ?_, ?_⟩
              · rw [hs2, hq2b]
                simp
              · rw [← ha]
                exact hp1
              · rw [← hq2b]
                exact hq2
          · have hlen : p2.length = p1.length + c.length := by rw [hc]; simp
            omega
        · simp [hf, hl, hji] at he
  · rintro (h | h | ⟨a, b, c, hs, ha, hc⟩)
    · rw [extractJSON_eq, (firstIndexByte_eq_none _ _).2 h]
      exact ⟨_, rfl⟩
    · rw [extractJSON_eq, (lastIndexByte_eq_none _ _).2 h]
      cases firstIndexByte openBrace s with
      | none => exact ⟨_, rfl⟩
      | some i => exact ⟨_, rfl⟩
    · have hf : firstIndexByte openBrace s = some (a ++ closeBrace :: b).length := by
        rw [hs]
        exact firstIndexByte_append openBrace (a ++ closeBrace :: b) c ha
      have hl : lastIndexByte closeBrace s = some a.length := by
        rw [hs, List.append_assoc]
        exact lastIndexByte_append closeBrace a (b ++ openBrace :: c) hc
      rw [extractJSON_eq, hf, hl]
      have h1 : a.length + 1 ≤ (a ++ closeBrace :: b).length := by simp
      simp only [h1, if_true]
      exact ⟨_, rfl⟩


/-- C12: `extractJSON` fails if and only if its input has no opening brace, or
no closing brace, or its last closing brace lies before its first opening brace;
otherwise it returns exactly the part of the input from the first opening brace
to the last closing brace, both included. Hence for `s = p ++ j ++ q` where `p`
has no opening brace, `q` has no closing brace, and `j` starts with an opening
brace and ends with a closing brace, the result is `j`. -/
theorem extractJSON_contract :
    (∀ s, (∃ e, extractJSON s = .error e) ↔
      openBrace ∉ s ∨ closeBrace ∉ s ∨
      ∃ a b c, s = a ++ closeBrace :: b ++ openBrace :: c ∧
        openBrace ∉ a ++ closeBrace :: b ∧ closeBrace ∉ b ++ openBrace :: c) ∧
    (∀ s r, extractJSON s = .ok r ↔
      ∃ p m q, s = p ++ (openBrace :: m ++ [closeBrace]) ++ q ∧ openBrace ∉ p ∧
        closeBrace ∉ q ∧ r = openBrace :: m ++ [closeBrace]) ∧
    (∀ p j q, openBrace ∉ p → closeBrace ∉ q → j.head? = some openBrace →
      j.getLast? = some closeBrace → extractJSON (p ++ j ++ q) = .ok j) := by
  refine ⟨extractJSON_error_iff, fun s r => ⟨extractJSON_ok s r, ?_⟩, ?_⟩
  · rintro ⟨p, m, q, rfl, hp, hq, rfl⟩
    exact extractJSON_of_decomposition p m q hp hq
  · intro p j q hp hq hh hl
    obtain ⟨t, rfl⟩ := List.head?_eq_some_iff.1 hh
    obtain ⟨ys, hys⟩ := List.getLast?_eq_some_iff.1 hl
    cases ys with
    | nil =>
      simp only [List.nil_append, List.cons.injEq] at hys
      exact absurd hys.1 (by decide)
    | cons y m =>
      simp only [List.cons_append, List.cons.injEq] at hys
      obtain ⟨rfl, rfl⟩ := hys
      exact extractJSON_of_decomposition p m q hp hq

/-- Witness of C12: scan output `x` `\x7b"\x7d` newline, as bytes; the result is
the part between the braces, both included. -/
theorem extractJSON_contract_witness :
    extractJSON ([120] ++ [123, 34, 125] ++ [10]) = .ok [123, 34, 125] :=
  extractJSON_contract.2.2 [120] [123, 34, 125] [10] (by decide) (by decide) rfl rfl

/-! ## Function `ListTopLevelDirectories` -/

/-- On a Unix-like system the result is the directory entries of `rootPath`,
joined with `rootPath`, in listing order, without the paths of the exclusions
map. -/
theorem ListTopLevelDirectories_unix (os : OSEnv) (rootPath : String)
    (items : List DirEntry) (hos : os.GOOS ≠ "windows") (hr : os.ReadDir rootPath = .ok items) :
    ListTopLevelDirectories os rootPath =
        .ok ((((items.filter fun item => item.IsDir).map fun item =>
          os.Join rootPath item.Name)).filter fun fullPath => !isExcluded fullPath) ∧
      ∀ dirs, ListTopLevelDirectories os rootPath = .ok dirs →
        ∀ d ∈ dirs, isExcluded d = false := by
  have h : ListTopLevelDirectories os rootPath =
      .ok ((((items.filter fun item => item.IsDir).map fun item =>
        os.Join rootPath item.Name)).filter fun fullPath => !isExcluded fullPath) := by
    have key : ∀ l : List DirEntry,
        (l.filterMap fun item =>
          if item.IsDir then
            if !isExcluded (os.Join rootPath item.Name) then some (os.Join rootPath item.Name)
            else none
          else none) =
        (((l.filter fun item => item.IsDir).map fun item =>
          os.Join rootPath item.Name)).filter fun fullPath => !isExcluded fullPath := by
      intro l
      induction l with
      | nil => rfl
      | cons item rest ih =>
        simp only [Bool.not_eq_true'] at ih ⊢
        by_cases hd : item.IsDir = true
        · by_cases he : isExcluded (os.Join rootPath item.Name) = true
          · simp [List.filterMap_cons, List.filter_cons, hd, he, ih]
          · simp [List.filterMap_cons, List.filter_cons, hd, he, ih]
        · simp [List.filterMap_cons, List.filter_cons, hd, ih]
    simp only [ListTopLevelDirectories, hos, if_false, hr]
    exact congrArg Except.ok (key items)
  refine ⟨h, ?_⟩
  intro dirs hdirs d hd
  rw [h] at hdirs
  cases hdirs
  simpa using (List.mem_filter.1 hd).2

/-- C13 fails on the code: on Windows the drive roots are appended without
consulting the exclusions map, so when the drive `D:` exists the result contains
the excluded path `D:\`; the Unix-like branch, at a sample root, does leave the
excluded `/tmp` out. -/
theorem ListTopLevelDirectories_windows_keeps_excluded_drive :
    ListTopLevelDirectories windowsWithDriveD "" = .ok ["D:\\"] ∧
      isExcluded "D:\\" = true ∧
      ListTopLevelDirectories linuxSample "/" = .ok ["/etc", "/home"] := by
  refine ⟨rfl, by decide, rfl⟩

end Scanapp
